import Mathlib

/-!
# doowm: a shallow embedding of the window-manager core

The C++ sources under `src/x` are embedded as pure Lean functions.

* Every call into the xcb library that sends something to the server, and
  the release of the event record received by the dispatcher, is recorded as an
  `Effect`; a function of the program returns the list of effects it performs,
  in program order.
* Replies of synchronous round trips are read from a `Server` value, which
  stands for what the display server answers at the time of the call.
* Machine integers are natural numbers; a signed value stored into a
  `uint32_t` slot goes through `toU32`.
* Calls of the `Logger` class are not protocol traffic and are left out of the
  traces; where a property is about a log record, the `Logger` calls of that
  function are given by a definition of their own.
* The construction and the destruction of an object owned by class `X` are
  recorded in the trace as well, so that the order of start-up and of teardown
  can be read from it.
* A call of `fork()` is recorded together with the steps that the child
  process takes.
-/

namespace Doowm

/-! ## Constants of the xcb headers -/

/-- Predefined atom `STRING`. -/
def XCB_ATOM_STRING : Nat := 31
/-- Predefined atom `WM_CLASS`. -/
def XCB_ATOM_WM_CLASS : Nat := 67
/-- Map state of a window that is mapped together with all its ancestors. -/
def XCB_MAP_STATE_VIEWABLE : Nat := 2

def XCB_CONFIG_WINDOW_X : Nat := 1
def XCB_CONFIG_WINDOW_Y : Nat := 2
def XCB_CONFIG_WINDOW_WIDTH : Nat := 4
def XCB_CONFIG_WINDOW_HEIGHT : Nat := 8
def XCB_CONFIG_WINDOW_BORDER_WIDTH : Nat := 16
def XCB_CONFIG_WINDOW_SIBLING : Nat := 32
def XCB_CONFIG_WINDOW_STACK_MODE : Nat := 64

def XCB_STACK_MODE_ABOVE : Nat := 0
def XCB_STACK_MODE_BELOW : Nat := 1

def XCB_CW_BACK_PIXEL : Nat := 2
def XCB_CW_BORDER_PIXEL : Nat := 8
def XCB_CW_EVENT_MASK : Nat := 2048

def XCB_EVENT_MASK_KEY_PRESS : Nat := 1
def XCB_EVENT_MASK_BUTTON_PRESS : Nat := 4
def XCB_EVENT_MASK_BUTTON_RELEASE : Nat := 8
def XCB_EVENT_MASK_POINTER_MOTION : Nat := 64
def XCB_EVENT_MASK_EXPOSURE : Nat := 32768
def XCB_EVENT_MASK_STRUCTURE_NOTIFY : Nat := 131072
def XCB_EVENT_MASK_SUBSTRUCTURE_NOTIFY : Nat := 524288
def XCB_EVENT_MASK_SUBSTRUCTURE_REDIRECT : Nat := 1048576
def XCB_EVENT_MASK_PROPERTY_CHANGE : Nat := 4194304

def XCB_COPY_FROM_PARENT : Nat := 0
def XCB_WINDOW_CLASS_INPUT_OUTPUT : Nat := 1

def XCB_INPUT_FOCUS_POINTER_ROOT : Nat := 1
def XCB_CURRENT_TIME : Nat := 0

def XCB_KEY_PRESS : Nat := 2
def XCB_BUTTON_PRESS : Nat := 4
def XCB_BUTTON_RELEASE : Nat := 5
def XCB_MOTION_NOTIFY : Nat := 6
def XCB_DESTROY_NOTIFY : Nat := 17
def XCB_UNMAP_NOTIFY : Nat := 18
def XCB_MAP_REQUEST : Nat := 20
def XCB_CONFIGURE_REQUEST : Nat := 23

def XCB_MOD_MASK_SHIFT : Nat := 1
def XCB_MOD_MASK_LOCK : Nat := 2
def XCB_MOD_MASK_1 : Nat := 8
def XCB_MOD_MASK_2 : Nat := 16
def XCB_GRAB_MODE_ASYNC : Nat := 1
def XCB_PROP_MODE_REPLACE : Nat := 0
def XCB_GC_FOREGROUND : Nat := 4
def XCB_GC_BACKGROUND : Nat := 8
def XCB_ATOM_WM_NAME : Nat := 39

/-! Key symbols of `X11/keysymdef.h`. -/
def XK_space : Nat := 0x0020
def XK_Tab : Nat := 0xff09
def XK_Left : Nat := 0xff51
def XK_Right : Nat := 0xff53
def XK_F1 : Nat := 0xffbe
def XK_F2 : Nat := 0xffbf
def XK_F4 : Nat := 0xffc1
def XCB_BUTTON_MASK_1 : Nat := 256
def XCB_BUTTON_MASK_2 : Nat := 512
def XCB_BUTTON_MASK_3 : Nat := 1024
def XCB_BUTTON_MASK_4 : Nat := 2048
def XCB_BUTTON_MASK_5 : Nat := 4096

/-- Conversion of a signed integer to the `uint32_t` slot that stores it. -/
def toU32 (i : Int) : Nat := (i % 4294967296).toNat

/-- Narrowing of a signed integer to an `int16_t` parameter. -/
def toI16 (i : Int) : Int := (i + 32768) % 65536 - 32768

/-- The bytes of a string literal. -/
def bytes (s : String) : List Nat := s.toList.map Char.toNat

/-! ## Replies of round trips -/

/-- The fields of `xcb_get_window_attributes_reply_t` that the program reads. -/
structure xcb_get_window_attributes_reply_t where
  map_state : Nat
  override_redirect : Nat
deriving DecidableEq, Repr

/-- The fields of `xcb_get_property_reply_t` that the program reads; `value`
is the byte string of `xcb_get_property_value`, whose length is
`xcb_get_property_value_length`. -/
structure xcb_get_property_reply_t where
  type : Nat
  format : Nat
  value : List Nat
deriving DecidableEq, Repr

/-- The fields of `xcb_get_geometry_reply_t` that the program reads: `x` and
`y` are `int16_t`, the extents are `uint16_t`. -/
structure xcb_get_geometry_reply_t where
  x : Int
  y : Int
  width : Nat
  height : Nat
  border_width : Nat
deriving DecidableEq, Repr

/-- The fields of `xcb_screen_t` that the program reads. -/
structure xcb_screen_t where
  root : Nat
  white_pixel : Nat
  black_pixel : Nat
  root_visual : Nat
deriving DecidableEq, Repr

/-- What the display server answers to the synchronous queries of the program.
`none` is a null reply. -/
structure Server where
  /-- Reply to `xcb_get_window_attributes` on a window. -/
  get_window_attributes : Nat → Option xcb_get_window_attributes_reply_t
  /-- Reply to `xcb_get_property` on a window, for a property atom and a
  requested type atom. -/
  get_property : Nat → Nat → Nat → Option xcb_get_property_reply_t
  /-- Reply to `xcb_query_tree` on a window: the list of its children. -/
  query_tree : Nat → Option (List Nat)
  /-- Result of `xcb_connection_has_error` on the connection. -/
  has_error : Nat
  /-- The screen record selected after `xcb_connect`, `none` when the
  iterator holds no screen. -/
  screen : Option xcb_screen_t
  /-- Result of `xcb_request_check` on the checked change of the root
  attributes: `true` when an error record comes back. -/
  request_check_error : Bool
  /-- Result of `xcb_key_symbols_alloc`: `none` for a null table, else the
  first keycode of each key symbol that has one. -/
  key_symbols : Option (List (Nat × Nat))
  /-- Result of `xcb_generate_id`. -/
  generate_id : Nat
  /-- Reply to `xcb_get_geometry` on a window. -/
  get_geometry : Nat → Option xcb_get_geometry_reply_t

/-- A property reply the server can produce for a request that names the type
`STRING`: the format is 8, 16 or 32 with a value of whole units, and a property
of another type comes back with an empty value. -/
def wellFormedStringReply (r : xcb_get_property_reply_t) : Bool :=
  (r.format == 8 || r.format == 16 || r.format == 32) &&
  r.value.length % (r.format / 8) == 0 &&
  r.value.all (fun b => b < 256) &&
  (r.type == XCB_ATOM_STRING || r.value.isEmpty)

/-! ## Effects -/

/-- The objects that class `X` owns: its `unique_ptr` members and the entries
of its vector of managed windows. -/
inductive Component where
  | connection
  | rootWindow
  | keyboardHandler
  | eventHandler
  | launcher
  /-- The entity of the managed window with this id. -/
  | managedWindow (windowId : Nat)
deriving DecidableEq, Repr

/-- What a child process made by `fork()` does, step by step. -/
inductive ProcessStep where
  /-- Call of `setsid()`. -/
  | setsid
  /-- Call of `Connection::close()` on the copy of the connection that the
  child holds. -/
  | closeConnection
  /-- Call of `execl(path, argv..., nullptr)`. -/
  | execl (path : List Nat) (argv : List (List Nat))
  /-- Call of `exit(code)`, reached when `execl` returns. -/
  | exit (code : Nat)
deriving DecidableEq, Repr

/-- Requests sent through the connection, and the release of a received event
record. -/
inductive Effect where
  /-- Call of `xcb_get_window_attributes` with its reply awaited. -/
  | getWindowAttributes (window : Nat)
  /-- Call of `xcb_get_property` with its reply awaited. -/
  | getProperty (del window property type long_offset long_length : Nat)
  /-- Call of `xcb_query_tree` with its reply awaited. -/
  | queryTree (window : Nat)
  /-- Call of `xcb_connect`. -/
  | connect
  /-- Call of `xcb_disconnect`. -/
  | disconnect
  /-- Call of `xcb_change_window_attributes`. -/
  | changeWindowAttributes (window value_mask : Nat) (values : List Nat)
  /-- Call of `xcb_change_window_attributes_checked` followed by
  `xcb_request_check`. -/
  | changeWindowAttributesChecked (window value_mask : Nat) (values : List Nat)
  | grabKey (owner_events grab_window modifiers key pointer_mode keyboard_mode : Nat)
  | changeProperty (mode window property type format data_len : Nat) (data : List Nat)
  /-- Call of `xcb_configure_window`; `values` are the slots of the value
  buffer that the caller has written, in order. -/
  | configureWindow (window value_mask : Nat) (values : List Nat)
  | mapWindow (window : Nat)
  | unmapWindow (window : Nat)
  | destroyWindow (window : Nat)
  | createWindow (depth wid parent : Nat) (x y : Int)
      (width height border_width cls visual value_mask : Nat) (values : List Nat)
  | setInputFocus (revert_to focus time : Nat)
  /-- Call of `Connection::flush`. -/
  | flush
  /-- Call of `free` on the event record received by `processNextEvent`. -/
  | freeEvent
  /-- A member of class `X` has been constructed (`std::make_unique`). -/
  | construct (c : Component)
  /-- The destructor of an object owned by class `X` starts (`reset()` of a
  member that is not null, `delete` of a managed window). -/
  | destruct (c : Component)
  /-- Call of a callback registered with the keyboard handler, named by the
  message it logs. -/
  | callback (message : String)
  /-- Call of `xcb_get_geometry` with its reply awaited. -/
  | getGeometry (drawable : Nat)
  | clearArea (exposures window : Nat) (x y : Int) (width height : Nat)
  | createGC (cid drawable value_mask : Nat) (values : List Nat)
  /-- Call of `xcb_image_text_8`; `string_len` is the `uint8_t` length that is
  passed, `text` the bytes of the string handed over. -/
  | imageText8 (string_len drawable gc : Nat) (x y : Int) (text : List Nat)
  | freeGC (gc : Nat)
  /-- Call of `fork()`: `none` when no child is made, else the steps that the
  child takes. -/
  | fork (child : Option (List ProcessStep))
deriving DecidableEq, Repr

/-! ## std::string::find -/

/-- Search of `std::string::find` from position `i`: the first position at
which `pat` occurs, `none` for `npos`. -/
def findFrom (pat : List Nat) : List Nat → Nat → Option Nat
  | [], i => if pat.isEmpty then some i else none
  | c :: cs, i => if pat.isPrefixOf (c :: cs) then some i else findFrom pat cs (i + 1)

/-- Model of `std::string::find(pat)`. -/
def find (s pat : List Nat) : Option Nat := findFrom pat s 0

/-! ## window.cpp -/

/-- The object of class `Window`: the window id and whether the window was
created by this process. -/
structure Window where
  windowId : Nat
  created : Bool
deriving DecidableEq, Repr

/-- Model of `Window::setBorderColor`. -/
def Window.setBorderColor (self : Window) (color : Nat) : List Effect :=
  let mask := XCB_CW_BORDER_PIXEL
  let values := [color]
  [Effect.changeWindowAttributes self.windowId mask values, Effect.flush]

/-- Model of `Window::initialize`. -/
def Window.initialize (self : Window) : List Effect :=
  self.setBorderColor 0x000000

/-- Model of the constructor `Window(Connection&, xcb_window_t)` for an
existing window: the object and the effects of constructing it. -/
def Window.existing (windowId : Nat) : Window × List Effect :=
  let self : Window := { windowId := windowId, created := false }
  (self, Window.initialize self)

/-- Model of the constructor `Window(Connection&, int, int, unsigned, unsigned,
unsigned)` that creates a window. `newId` is the result of
`connection.generateId()`; the coordinates and extents are narrowed to the
16-bit parameters of `xcb_create_window`. -/
def Window.create (screen : xcb_screen_t) (newId : Nat) (x y : Int)
    (width height borderWidth : Nat) : Window × List Effect :=
  let self : Window := { windowId := newId, created := true }
  let mask := XCB_CW_BACK_PIXEL ||| XCB_CW_EVENT_MASK
  let values := [screen.white_pixel,
    XCB_EVENT_MASK_EXPOSURE ||| XCB_EVENT_MASK_KEY_PRESS |||
    XCB_EVENT_MASK_BUTTON_PRESS ||| XCB_EVENT_MASK_BUTTON_RELEASE |||
    XCB_EVENT_MASK_POINTER_MOTION ||| XCB_EVENT_MASK_STRUCTURE_NOTIFY]
  (self,
    [Effect.createWindow XCB_COPY_FROM_PARENT self.windowId screen.root
      (toI16 x) (toI16 y) (width % 65536) (height % 65536) (borderWidth % 65536)
      XCB_WINDOW_CLASS_INPUT_OUTPUT screen.root_visual mask values]
    ++ Window.initialize self)

/-- Model of the destructor `Window::~Window`. -/
def Window.delete (self : Window) : List Effect :=
  if self.created then [Effect.destroyWindow self.windowId, Effect.flush] else []

/-- Model of `Window::map`. -/
def Window.map (self : Window) : List Effect :=
  [Effect.mapWindow self.windowId, Effect.flush]

/-- Model of `Window::unmap`. -/
def Window.unmap (self : Window) : List Effect :=
  [Effect.unmapWindow self.windowId, Effect.flush]

/-- Model of `Window::configure`. -/
def Window.configure (self : Window) (x y : Int) (width height borderWidth stackMode : Nat) :
    List Effect :=
  let mask := XCB_CONFIG_WINDOW_X ||| XCB_CONFIG_WINDOW_Y |||
    XCB_CONFIG_WINDOW_WIDTH ||| XCB_CONFIG_WINDOW_HEIGHT |||
    XCB_CONFIG_WINDOW_BORDER_WIDTH ||| XCB_CONFIG_WINDOW_STACK_MODE
  let values := [toU32 x, toU32 y, width, height, borderWidth, stackMode]
  [Effect.configureWindow self.windowId mask values, Effect.flush]

/-- Model of `Window::move`. -/
def Window.move (self : Window) (x y : Int) : List Effect :=
  let mask := XCB_CONFIG_WINDOW_X ||| XCB_CONFIG_WINDOW_Y
  let values := [toU32 x, toU32 y]
  [Effect.configureWindow self.windowId mask values, Effect.flush]

/-- Model of `Window::resize`. -/
def Window.resize (self : Window) (width height : Nat) : List Effect :=
  let mask := XCB_CONFIG_WINDOW_WIDTH ||| XCB_CONFIG_WINDOW_HEIGHT
  let values := [width, height]
  [Effect.configureWindow self.windowId mask values, Effect.flush]

/-- Model of `Window::setBorderWidth`. -/
def Window.setBorderWidth (self : Window) (width : Nat) : List Effect :=
  let mask := XCB_CONFIG_WINDOW_BORDER_WIDTH
  let values := [width]
  [Effect.configureWindow self.windowId mask values, Effect.flush]

/-- Model of `Window::raise`. -/
def Window.raise (self : Window) : List Effect :=
  let mask := XCB_CONFIG_WINDOW_STACK_MODE
  let values := [XCB_STACK_MODE_ABOVE]
  [Effect.configureWindow self.windowId mask values, Effect.flush]

/-- Model of `Window::lower`. -/
def Window.lower (self : Window) : List Effect :=
  let mask := XCB_CONFIG_WINDOW_STACK_MODE
  let values := [XCB_STACK_MODE_BELOW]
  [Effect.configureWindow self.windowId mask values, Effect.flush]

/-- Model of `Window::focus`. -/
def Window.focus (self : Window) : List Effect :=
  [Effect.setInputFocus XCB_INPUT_FOCUS_POINTER_ROOT self.windowId XCB_CURRENT_TIME]
  ++ self.raise
  ++ [Effect.flush]

/-- The five reference parameters of `Window::getGeometry`. -/
structure Geometry where
  x : Int
  y : Int
  width : Nat
  height : Nat
  borderWidth : Nat
deriving DecidableEq, Repr

/-- Model of `Window::getGeometry`: `out` holds the values of the reference
parameters before the call; the result is the returned flag, their values
after the call, and the query issued. -/
def Window.getGeometry (self : Window) (srv : Server) (out : Geometry) :
    Bool × Geometry × List Effect :=
  match srv.get_geometry self.windowId with
  | none => (false, out, [Effect.getGeometry self.windowId])
  | some reply =>
    (true,
      { x := reply.x, y := reply.y, width := reply.width, height := reply.height,
        borderWidth := reply.border_width },
      [Effect.getGeometry self.windowId])

/-- Model of `Window::shouldManage`: the decision and the queries issued. -/
def Window.shouldManage (connection : Server) (windowId : Nat) : Bool × List Effect :=
  match connection.get_window_attributes windowId with
  | none => (false, [Effect.getWindowAttributes windowId])
  | some attr_reply =>
    let viewable := attr_reply.map_state == XCB_MAP_STATE_VIEWABLE
    let override_redirect := attr_reply.override_redirect != 0
    if override_redirect then
      (false, [Effect.getWindowAttributes windowId])
    else
      let should_manage :=
        match connection.get_property windowId XCB_ATOM_WM_CLASS XCB_ATOM_STRING with
        | none => true
        | some type_reply =>
          if type_reply.type == XCB_ATOM_STRING && type_reply.format == 8 then
            let window_class := type_reply.value
            if (find window_class (bytes "desktop")).isSome ||
                (find window_class (bytes "dock")).isSome then false else true
          else true
      (viewable && should_manage,
        [Effect.getWindowAttributes windowId,
         Effect.getProperty 0 windowId XCB_ATOM_WM_CLASS XCB_ATOM_STRING 0 1024])


/-! ## Event records -/

structure xcb_map_request_event_t where
  window : Nat
deriving DecidableEq, Repr

/-- The record `xcb_configure_request_event_t`: `x` and `y` are `int16_t`, the
extents and `value_mask` are `uint16_t`, `stack_mode` is `uint8_t`. -/
structure xcb_configure_request_event_t where
  stack_mode : Nat
  window : Nat
  sibling : Nat
  x : Int
  y : Int
  width : Nat
  height : Nat
  border_width : Nat
  value_mask : Nat
deriving DecidableEq, Repr

structure xcb_unmap_notify_event_t where
  window : Nat
deriving DecidableEq, Repr

structure xcb_destroy_notify_event_t where
  window : Nat
deriving DecidableEq, Repr

/-- The fields of `xcb_key_press_event_t` that decide behaviour: the keycode,
the modifier state and the event window. -/
structure xcb_key_press_event_t where
  detail : Nat
  state : Nat
  event : Nat
deriving DecidableEq, Repr

/-- The fields of `xcb_button_press_event_t` (and of its alias for releases)
that decide behaviour. -/
structure xcb_button_press_event_t where
  detail : Nat
  state : Nat
  event : Nat
deriving DecidableEq, Repr

structure xcb_motion_notify_event_t where
  state : Nat
  event : Nat
deriving DecidableEq, Repr

/-- The record returned by `xcb_wait_for_event`. The program reads it through
`reinterpret_cast` to the record type of its kind; each such reading of the
buffer is a field here, and nothing relates one reading to another. -/
structure xcb_generic_event_t where
  response_type : Nat
  asMapRequest : xcb_map_request_event_t
  asConfigureRequest : xcb_configure_request_event_t
  asUnmapNotify : xcb_unmap_notify_event_t
  asDestroyNotify : xcb_destroy_notify_event_t
  asKeyPress : xcb_key_press_event_t
  asButtonPress : xcb_button_press_event_t
  asButtonRelease : xcb_button_press_event_t
  asMotionNotify : xcb_motion_notify_event_t
deriving DecidableEq, Repr

/-! ## connection.cpp -/

/-- The object of class `Connection`: whether the handle is non-null, and the
screen record. -/
structure Connection where
  connection : Bool
  screen : xcb_screen_t
deriving DecidableEq, Repr

/-- Model of the constructor `Connection::Connection`: `none` when it throws.
The call of `xcb_connect` is made in either case. -/
def Connection.new (srv : Server) : Option Connection × List Effect :=
  if srv.has_error != 0 then
    (none, [Effect.connect])
  else
    match srv.screen with
    | none => (none, [Effect.connect])
    | some screen => (some { connection := true, screen := screen }, [Effect.connect])

/-- Model of the destructor `Connection::~Connection`. -/
def Connection.delete (self : Connection) : List Effect :=
  if self.connection then [Effect.disconnect] else []

/-- Model of `Connection::close`: the object afterwards and the effects. -/
def Connection.close (self : Connection) : Connection × List Effect :=
  if self.connection then
    ({ self with connection := false }, [Effect.disconnect])
  else
    (self, [])

/-- Model of `Connection::isConnected`. -/
def Connection.isConnected (self : Connection) (srv : Server) : Bool :=
  self.connection && srv.has_error == 0

/-- Model of `Connection::getRootWindow`. -/
def Connection.getRootWindow (self : Connection) : Nat :=
  self.screen.root

/-! ## keyboard.cpp -/

/-- The object of class `KeyboardHandler`: the key-symbol table (`none` for a
null pointer) and the map of callbacks, keyed by (keycode, modifiers); a
callback is named by the message it logs. -/
structure KeyboardHandler where
  keySymbols : Option (List (Nat × Nat))
  keyCallbacks : List ((Nat × Nat) × String)
deriving DecidableEq, Repr

/-- Model of the constructor `KeyboardHandler::KeyboardHandler`. -/
def KeyboardHandler.new (srv : Server) : KeyboardHandler :=
  { keySymbols := srv.key_symbols, keyCallbacks := [] }

/-- Model of `KeyboardHandler::keysymToKeycode`. -/
def KeyboardHandler.keysymToKeycode (self : KeyboardHandler) (keysym : Nat) : Nat :=
  match self.keySymbols with
  | none => 0
  | some table =>
    match table.lookup keysym with
    | none => 0
    | some code => code % 256

/-- Model of `KeyboardHandler::grabKey`. -/
def KeyboardHandler.grabKey (root keycode modifiers : Nat) : List Effect :=
  if keycode == 0 then []
  else
    [Effect.grabKey 1 root modifiers keycode XCB_GRAB_MODE_ASYNC XCB_GRAB_MODE_ASYNC,
     Effect.grabKey 1 root (modifiers ||| XCB_MOD_MASK_2) keycode
       XCB_GRAB_MODE_ASYNC XCB_GRAB_MODE_ASYNC,
     Effect.grabKey 1 root (modifiers ||| XCB_MOD_MASK_LOCK) keycode
       XCB_GRAB_MODE_ASYNC XCB_GRAB_MODE_ASYNC,
     Effect.grabKey 1 root (modifiers ||| XCB_MOD_MASK_2 ||| XCB_MOD_MASK_LOCK) keycode
       XCB_GRAB_MODE_ASYNC XCB_GRAB_MODE_ASYNC]

/-- Model of `KeyboardHandler::registerKeyCallback`: assignment through
`operator[]` of the map, which replaces the value of a key already present. -/
def KeyboardHandler.registerKeyCallback (self : KeyboardHandler) (keycode modifiers : Nat)
    (callback : String) : KeyboardHandler :=
  let keyId := (keycode, modifiers)
  { self with
    keyCallbacks := (self.keyCallbacks.filter (fun e => e.1 != keyId)) ++ [(keyId, callback)] }

/-- Model of `KeyboardHandler::grabWMKeys`. -/
def KeyboardHandler.grabWMKeys (self : KeyboardHandler) (root : Nat) :
    KeyboardHandler × List Effect :=
  let grabs :=
    KeyboardHandler.grabKey root (self.keysymToKeycode XK_Tab) XCB_MOD_MASK_1 ++
    KeyboardHandler.grabKey root (self.keysymToKeycode XK_F4) XCB_MOD_MASK_1 ++
    KeyboardHandler.grabKey root (self.keysymToKeycode XK_F2) XCB_MOD_MASK_1 ++
    KeyboardHandler.grabKey root (self.keysymToKeycode XK_space) XCB_MOD_MASK_1 ++
    KeyboardHandler.grabKey root (self.keysymToKeycode XK_F1) XCB_MOD_MASK_1 ++
    KeyboardHandler.grabKey root (self.keysymToKeycode XK_Left)
      (XCB_MOD_MASK_1 ||| XCB_MOD_MASK_SHIFT) ++
    KeyboardHandler.grabKey root (self.keysymToKeycode XK_Right)
      (XCB_MOD_MASK_1 ||| XCB_MOD_MASK_SHIFT) ++
    KeyboardHandler.grabKey root (self.keysymToKeycode XK_Left) XCB_MOD_MASK_1 ++
    KeyboardHandler.grabKey root (self.keysymToKeycode XK_Right) XCB_MOD_MASK_1
  let self1 := self.registerKeyCallback (self.keysymToKeycode XK_Tab) XCB_MOD_MASK_1
    "Alt+Tab pressed - Switch window"
  let self2 := self1.registerKeyCallback (self.keysymToKeycode XK_F4) XCB_MOD_MASK_1
    "Alt+F4 pressed - Close window"
  let self3 := self2.registerKeyCallback (self.keysymToKeycode XK_F2) XCB_MOD_MASK_1
    "Alt+F2 pressed - Launch application"
  (self3, grabs ++ [Effect.flush])

/-- Model of `KeyboardHandler::handleKeyPress`; `none` is a null event. The
result is the returned flag and the callback that was run. -/
def KeyboardHandler.handleKeyPress (self : KeyboardHandler)
    (event : Option xcb_key_press_event_t) : Bool × List Effect :=
  match event with
  | none => (false, [])
  | some event =>
    let keyId := (event.detail, (event.state &&& 0xFF) % 65536)
    match self.keyCallbacks.lookup keyId with
    | some callback => (true, [Effect.callback callback])
    | none => (false, [])

/-- Model of the destructor `KeyboardHandler::~KeyboardHandler`: it frees the
key-symbol table, which sends nothing. -/
def KeyboardHandler.delete (_self : KeyboardHandler) : List Effect :=
  []

/-! ## launcher.cpp -/

/-- The callback that `X::initialize` installs on the launcher. -/
inductive ExecuteCallback where
  /-- The lambda of `X::initialize`: fork, then `setsid` and `execl` of the
  shell in the child. -/
  | forkSetsidExec
deriving DecidableEq, Repr

/-- The object of class `Launcher`. -/
structure Launcher where
  window : Nat
  visible : Bool
  command : List Nat
  executeCallback : Option ExecuteCallback
deriving DecidableEq, Repr

/-- Model of the constructor `Launcher::Launcher`, which runs
`Launcher::createWindow`. -/
def Launcher.new (srv : Server) (connection : Connection) : Launcher × List Effect :=
  let window := srv.generate_id
  let rootWindow := connection.getRootWindow
  let mask := XCB_CW_BACK_PIXEL ||| XCB_CW_EVENT_MASK
  let values := [connection.screen.white_pixel,
    XCB_EVENT_MASK_EXPOSURE ||| XCB_EVENT_MASK_KEY_PRESS]
  let sent :=
    [Effect.createWindow XCB_COPY_FROM_PARENT window rootWindow 100 100 400 50 1
       XCB_WINDOW_CLASS_INPUT_OUTPUT connection.screen.root_visual mask values,
     Effect.changeProperty XCB_PROP_MODE_REPLACE window XCB_ATOM_WM_NAME XCB_ATOM_STRING 8 12
       (bytes "Run Command" ++ [0]),
     Effect.getWindowAttributes window]
  match srv.get_window_attributes window with
  | none =>
    ({ window := 0, visible := false, command := [], executeCallback := none }, sent)
  | some _ =>
    ({ window := window, visible := false, command := [], executeCallback := none },
      sent ++ [Effect.flush])

/-- Model of the destructor `Launcher::~Launcher`. -/
def Launcher.delete (self : Launcher) : List Effect :=
  if self.window != 0 then [Effect.destroyWindow self.window, Effect.flush] else []

/-- The steps of the child in the callback that `X::initialize` installs:
the body of `if (pid == 0)` of the lambda. -/
def ExecuteCallback.childSteps (_callback : ExecuteCallback) (command : List Nat) :
    List ProcessStep :=
  [ProcessStep.setsid,
   ProcessStep.execl (bytes "/bin/sh") [bytes "sh", bytes "-c", command],
   ProcessStep.exit 1]

/-- Call of the installed callback with a command; `forked` tells whether
`fork()` made a child. -/
def ExecuteCallback.call (callback : ExecuteCallback) (command : List Nat) (forked : Bool) :
    List Effect :=
  [Effect.fork (if forked then some (callback.childSteps command) else none)]

/-- Model of `Launcher::executeCommand`; `forked` tells whether `fork()` made a
child. -/
def Launcher.executeCommand (self : Launcher) (forked : Bool) : List Effect :=
  if self.command.isEmpty then []
  else
    match self.executeCallback with
    | some callback => callback.call self.command forked
    | none =>
      [Effect.fork
        (if forked then
          some [ProcessStep.closeConnection,
                ProcessStep.execl (bytes "/bin/sh") [bytes "sh", bytes "-c", self.command],
                ProcessStep.exit 1]
        else none)]

/-- Model of `Launcher::draw`. -/
def Launcher.draw (self : Launcher) (srv : Server) (connection : Connection) : List Effect :=
  if !self.visible then []
  else
    let gc := srv.generate_id
    let mask := XCB_GC_FOREGROUND ||| XCB_GC_BACKGROUND
    let values := [connection.screen.black_pixel, connection.screen.white_pixel]
    let displayText := bytes "Run: " ++ self.command
    [Effect.clearArea 0 self.window 0 0 0 0,
     Effect.createGC gc self.window mask values,
     Effect.imageText8 (displayText.length % 256) self.window gc 10 20 displayText,
     Effect.freeGC gc,
     Effect.flush]

/-- Model of `Launcher::hide`. -/
def Launcher.hide (self : Launcher) : Launcher × List Effect :=
  if self.visible then
    ({ self with visible := false }, [Effect.unmapWindow self.window, Effect.flush])
  else
    (self, [])

/-- The keycode-to-character table in the default case of
`Launcher::handleKeyPress`; 0 when the keycode has no character. -/
def Launcher.keyToChar (detail : Nat) : Nat :=
  if detail >= 10 && detail <= 19 then
    (Char.toNat '0' + ((detail - 10 + 1) % 10)) % 256
  else if detail >= 24 && detail <= 33 then
    (Char.toNat 'a' + (detail - 24)) % 256
  else if detail >= 38 && detail <= 46 then
    (Char.toNat 'a' + (detail - 38 + 10)) % 256
  else if detail >= 52 && detail <= 58 then
    (Char.toNat 'a' + (detail - 52 + 19)) % 256
  else if detail == 65 then
    Char.toNat ' '
  else
    0

/-- Model of `Launcher::handleKeyPress`: the returned flag, the object
afterwards and the effects. -/
def Launcher.handleKeyPress (self : Launcher) (srv : Server) (connection : Connection)
    (forked : Bool) (event : xcb_key_press_event_t) : Bool × Launcher × List Effect :=
  if !self.visible then (false, self, [])
  else if event.event != self.window then (false, self, [])
  else if event.detail == 36 then
    let executed := self.executeCommand forked
    let hidden := self.hide
    (true, hidden.1, executed ++ hidden.2)
  else if event.detail == 9 then
    let hidden := self.hide
    (true, hidden.1, hidden.2)
  else if event.detail == 22 then
    if !self.command.isEmpty then
      let self1 := { self with command := self.command.dropLast }
      (true, self1, self1.draw srv connection)
    else
      (true, self, [])
  else
    let key := Launcher.keyToChar event.detail
    if key != 0 then
      let self1 := { self with command := self.command ++ [key] }
      (true, self1, self1.draw srv connection)
    else
      (false, self, [])

/-- Model of `Launcher::setExecuteCallback`. -/
def Launcher.setExecuteCallback (self : Launcher) (callback : ExecuteCallback) : Launcher :=
  { self with executeCallback := some callback }

/-! ## x.h, x.cpp: class `X` -/

/-- The members of class `X`. A `unique_ptr` member is an `Option`; the event
handler has no members of its own besides the back reference. -/
structure X where
  running : Bool
  connection : Option Connection
  rootWindow : Option Window
  eventHandler : Bool
  keyboardHandler : Option KeyboardHandler
  managedWindows : List Window
  launcher : Option Launcher
deriving DecidableEq, Repr

/-- Model of the constructor `X::X`. -/
def X.new : X :=
  { running := false, connection := none, rootWindow := none, eventHandler := false,
    keyboardHandler := none, managedWindows := [], launcher := none }

/-- Model of `X::terminate`. -/
def X.terminate (self : X) : X :=
  { self with running := false }

/-- Model of `X::setupRootWindow`; the first component is `true` when the
function throws. -/
def X.setupRootWindow (srv : Server) (self : X) (root : Nat) (kb : KeyboardHandler) :
    Bool × X × List Effect :=
  let values := [XCB_EVENT_MASK_SUBSTRUCTURE_REDIRECT ||| XCB_EVENT_MASK_SUBSTRUCTURE_NOTIFY |||
    XCB_EVENT_MASK_PROPERTY_CHANGE ||| XCB_EVENT_MASK_KEY_PRESS]
  let checked := [Effect.changeWindowAttributesChecked root XCB_CW_EVENT_MASK values]
  if srv.request_check_error then
    (true, self, checked)
  else
    let grabbed := kb.grabWMKeys root
    (false, { self with keyboardHandler := some grabbed.1 },
      checked ++ grabbed.2 ++ [Effect.flush])

/-- The loop of `X::scanExistingWindows` over the children of the root. -/
def X.scanChildren (srv : Server) : List Nat → X → X × List Effect
  | [], self => (self, [])
  | windowId :: rest, self =>
    let check := Window.shouldManage srv windowId
    if !check.1 then
      let after := X.scanChildren srv rest self
      (after.1, check.2 ++ after.2)
    else
      let made := Window.existing windowId
      let window := made.1
      let self1 := { self with managedWindows := self.managedWindows ++ [window] }
      let after := X.scanChildren srv rest self1
      (after.1, check.2 ++ made.2 ++ window.map ++ after.2)

/-- Model of `X::scanExistingWindows`. -/
def X.scanExistingWindows (srv : Server) (self : X) (root : Nat) :
    X × List Effect :=
  match srv.query_tree root with
  | none => (self, [Effect.queryTree root])
  | some children =>
    let scanned := X.scanChildren srv children self
    (scanned.1, [Effect.queryTree root] ++ scanned.2)

/-- Model of `X::initialize`: the returned flag, the state and the effects. -/
def X.initialize (srv : Server) (self : X) : Bool × X × List Effect :=
  let connected := Connection.new srv
  match connected.1 with
  | none => (false, self, connected.2)
  | some connection =>
    let self1 := { self with connection := some connection }
    let t1 := connected.2 ++ [Effect.construct Component.connection]
    if !connection.isConnected srv then
      (false, self1, t1)
    else
      let root := Window.existing connection.getRootWindow
      let self2 := { self1 with rootWindow := some root.1 }
      let t2 := t1 ++ root.2 ++ [Effect.construct Component.rootWindow]
      let kb := KeyboardHandler.new srv
      let self3 := { self2 with keyboardHandler := some kb }
      let t3 := t2 ++ [Effect.construct Component.keyboardHandler]
      let self4 := { self3 with eventHandler := true }
      let t4 := t3 ++ [Effect.construct Component.eventHandler]
      let setup := X.setupRootWindow srv self4 root.1.windowId kb
      if setup.1 then
        (false, setup.2.1, t4 ++ setup.2.2)
      else
        let scanned := X.scanExistingWindows srv setup.2.1 root.1.windowId
        let made := Launcher.new srv connection
        let launcher := made.1.setExecuteCallback ExecuteCallback.forkSetsidExec
        let self5 := { scanned.1 with launcher := some launcher }
        (true, self5,
          t4 ++ setup.2.2 ++ scanned.2 ++ made.2 ++ [Effect.construct Component.launcher])

/-- The `delete` of every entry of `managedWindows` in the destructor of `X`. -/
def X.deleteManagedWindows : List Window → List Effect
  | [] => []
  | window :: rest =>
    [Effect.destruct (Component.managedWindow window.windowId)] ++ window.delete ++
      X.deleteManagedWindows rest

/-- Model of the destructor `X::~X`. A `reset()` of a null member does
nothing. -/
def X.delete (self : X) : List Effect :=
  X.deleteManagedWindows self.managedWindows ++
  (match self.launcher with
    | none => []
    | some launcher => [Effect.destruct Component.launcher] ++ launcher.delete) ++
  (if self.eventHandler then [Effect.destruct Component.eventHandler] else []) ++
  (match self.keyboardHandler with
    | none => []
    | some kb => [Effect.destruct Component.keyboardHandler] ++ kb.delete) ++
  (match self.rootWindow with
    | none => []
    | some root => [Effect.destruct Component.rootWindow] ++ root.delete) ++
  (match self.connection with
    | none => []
    | some connection => [Effect.destruct Component.connection] ++ connection.delete)

/-! ## event_handler.cpp -/

/-- Model of `EventHandler::handleMapRequest`. The `Window` object made by
`new` is used for the requests and then dropped: the handler holds no other
reference to it and does not touch `managedWindows`. -/
def EventHandler.handleMapRequest (srv : Server) (event : xcb_map_request_event_t)
    (system : X) : X × List Effect :=
  let check := Window.shouldManage srv event.window
  if check.1 then
    let made := Window.existing event.window
    let window := made.1
    (system,
      check.2 ++ made.2 ++ window.setBorderWidth 2 ++ window.setBorderColor 0x3388FF ++
      window.map ++ window.focus)
  else
    (system, check.2 ++ [Effect.mapWindow event.window, Effect.flush])

/-- One guarded store `if (cond) values[i++] = v;` into the value buffer,
which is held as the list of the slots written so far. -/
def storeIf (cond : Bool) (values : List Nat) (v : Nat) : List Nat :=
  if cond then values ++ [v] else values

/-- Model of `EventHandler::handleConfigureRequest`. `values` holds the slots
written so far, so its length is the index `i` of the source. -/
def EventHandler.handleConfigureRequest (event : xcb_configure_request_event_t)
    (system : X) : X × List Effect :=
  let mask := event.value_mask
  let values : List Nat := []
  let values := storeIf (mask &&& XCB_CONFIG_WINDOW_X != 0) values (toU32 event.x)
  let values := storeIf (mask &&& XCB_CONFIG_WINDOW_Y != 0) values (toU32 event.y)
  let values := storeIf (mask &&& XCB_CONFIG_WINDOW_WIDTH != 0) values event.width
  let values := storeIf (mask &&& XCB_CONFIG_WINDOW_HEIGHT != 0) values event.height
  let values := storeIf (mask &&& XCB_CONFIG_WINDOW_BORDER_WIDTH != 0) values event.border_width
  let values := storeIf (mask &&& XCB_CONFIG_WINDOW_SIBLING != 0) values event.sibling
  let values := storeIf (mask &&& XCB_CONFIG_WINDOW_STACK_MODE != 0) values event.stack_mode
  (system, [Effect.configureWindow event.window mask values, Effect.flush])

/-- Model of `EventHandler::handleUnmapNotify`: the body only logs. -/
def EventHandler.handleUnmapNotify (_event : xcb_unmap_notify_event_t) (system : X) :
    X × List Effect :=
  (system, [])

/-- Model of `EventHandler::handleDestroyNotify`: the body only logs. -/
def EventHandler.handleDestroyNotify (_event : xcb_destroy_notify_event_t) (system : X) :
    X × List Effect :=
  (system, [])

/-- Model of `EventHandler::handleKeyPress`: the body only logs. -/
def EventHandler.handleKeyPress (_event : xcb_key_press_event_t) (system : X) :
    X × List Effect :=
  (system, [])

/-- Model of `EventHandler::handleButtonPress`. -/
def EventHandler.handleButtonPress (event : xcb_button_press_event_t) (system : X) :
    X × List Effect :=
  if event.detail == 1 then
    (system,
      [Effect.setInputFocus XCB_INPUT_FOCUS_POINTER_ROOT event.event XCB_CURRENT_TIME,
       Effect.configureWindow event.event XCB_CONFIG_WINDOW_STACK_MODE [XCB_STACK_MODE_ABOVE],
       Effect.flush])
  else
    (system, [])

/-- Model of `EventHandler::handleButtonRelease`: the body only logs. -/
def EventHandler.handleButtonRelease (_event : xcb_button_press_event_t) (system : X) :
    X × List Effect :=
  (system, [])

/-- Model of `EventHandler::handleMotionNotify`: the body only logs. -/
def EventHandler.handleMotionNotify (_event : xcb_motion_notify_event_t) (system : X) :
    X × List Effect :=
  (system, [])

/-- The event type computed by `processNextEvent`: `response_type & ~0x80`
stored into a `uint8_t`. -/
def eventTypeOf (response_type : Nat) : Nat :=
  (response_type &&& (4294967295 - 0x80)) % 256

/-- The `switch` of `EventHandler::processNextEvent`. -/
def EventHandler.dispatch (srv : Server) (event : xcb_generic_event_t) (system : X) :
    X × List Effect :=
  let eventType := eventTypeOf event.response_type
  if eventType == XCB_MAP_REQUEST then
    EventHandler.handleMapRequest srv event.asMapRequest system
  else if eventType == XCB_CONFIGURE_REQUEST then
    EventHandler.handleConfigureRequest event.asConfigureRequest system
  else if eventType == XCB_UNMAP_NOTIFY then
    EventHandler.handleUnmapNotify event.asUnmapNotify system
  else if eventType == XCB_DESTROY_NOTIFY then
    EventHandler.handleDestroyNotify event.asDestroyNotify system
  else if eventType == XCB_KEY_PRESS then
    EventHandler.handleKeyPress event.asKeyPress system
  else if eventType == XCB_BUTTON_PRESS then
    EventHandler.handleButtonPress event.asButtonPress system
  else if eventType == XCB_BUTTON_RELEASE then
    EventHandler.handleButtonRelease event.asButtonRelease system
  else if eventType == XCB_MOTION_NOTIFY then
    EventHandler.handleMotionNotify event.asMotionNotify system
  else
    (system, [])

/-- Model of `EventHandler::processNextEvent`; `received` is the result of
`xcb_wait_for_event`, `none` for a null pointer. -/
def EventHandler.processNextEvent (srv : Server) (received : Option xcb_generic_event_t)
    (system : X) : X × List Effect :=
  match received with
  | none => (system.terminate, [])
  | some event =>
    let handled := EventHandler.dispatch srv event system
    (handled.1, handled.2 ++ [Effect.freeEvent])

/-- The severities of the `Logger` class. -/
inductive LogLevel where
  | DEBUG
  | INFO
  | WARNING
  | ERROR
deriving DecidableEq, Repr

/-- The `Logger` calls of `EventHandler::handleMotionNotify`, each given by
its severity: the one call `Logger::debug(ss.str())` under its guard. -/
def EventHandler.handleMotionNotifyLog (event : xcb_motion_notify_event_t) : List LogLevel :=
  if event.state &&& (XCB_BUTTON_MASK_1 ||| XCB_BUTTON_MASK_2 ||| XCB_BUTTON_MASK_3) != 0 then
    [LogLevel.DEBUG]
  else
    []

/-! ## x.cpp: the event loop -/

/-- What reaches the process while `X::run` executes: a call of
`X::terminate()` made from outside the loop body, or the return of
`xcb_wait_for_event` with an event record or a null pointer. -/
inductive Input where
  | terminate
  | deliver (srv : Server) (received : Option xcb_generic_event_t)

/-- Where `X::run` stands: inside `processNextEvent`, blocked in
`xcb_wait_for_event`, or past the loop. -/
inductive Control where
  | waiting
  | returned
deriving DecidableEq, Repr

/-- The state of an execution of `X::run`: the object, the effects so far, the
number of calls of `processNextEvent` that have finished, and the control
point. -/
structure RunState where
  system : X
  trace : List Effect
  processed : Nat
  control : Control
deriving DecidableEq, Repr

/-- Entry of `X::run`: the flag is set, the loop condition holds, and the first
call of `processNextEvent` blocks in the wait. -/
def X.runEntry (self : X) : RunState :=
  { system := { self with running := true }, trace := [], processed := 0,
    control := Control.waiting }

/-- One input to an execution of `X::run`. A call of `terminate()` clears the
flag and nothing else. A delivery ends the wait: the call of
`processNextEvent` finishes, and the loop condition `while (running)` is
evaluated, either entering the next call or leaving the loop. -/
def X.runStep (st : RunState) : Input → RunState
  | Input.terminate => { st with system := st.system.terminate }
  | Input.deliver srv received =>
    match st.control with
    | Control.returned => st
    | Control.waiting =>
      let handled := EventHandler.processNextEvent srv received st.system
      { system := handled.1, trace := st.trace ++ handled.2, processed := st.processed + 1,
        control := if handled.1.running then Control.waiting else Control.returned }

/-- Model of `X::run` against a sequence of inputs. -/
def X.run (self : X) (inputs : List Input) : RunState :=
  inputs.foldl X.runStep self.runEntry

/-! ## Servers used as concrete inputs -/

/-- A server on which every window is viewable, not override-redirect, and
has the given `WM_CLASS` reply. -/
def serverWithClass (r : Option xcb_get_property_reply_t) : Server where
  get_window_attributes := fun _ => some ⟨XCB_MAP_STATE_VIEWABLE, 0⟩
  get_property := fun _ _ _ => r
  query_tree := fun _ => none
  has_error := 0
  screen := some ⟨1, 0xffffff, 0, 33⟩
  request_check_error := false
  key_symbols := some [(XK_Tab, 23), (XK_F4, 70), (XK_F2, 68)]
  generate_id := 4194304
  get_geometry := fun _ => some ⟨10, 20, 640, 480, 2⟩

/-- A server with the given attribute reply for every window and a `WM_CLASS`
of `xterm`. -/
def serverWithAttributes (a : Option xcb_get_window_attributes_reply_t) : Server where
  get_window_attributes := fun _ => a
  get_property := fun _ _ _ => some ⟨XCB_ATOM_STRING, 8, bytes "xterm"⟩
  query_tree := fun _ => none
  has_error := 0
  screen := some ⟨1, 0xffffff, 0, 33⟩
  request_check_error := false
  key_symbols := some [(XK_Tab, 23), (XK_F4, 70), (XK_F2, 68)]
  generate_id := 4194304
  get_geometry := fun _ => some ⟨10, 20, 640, 480, 2⟩

/-- An event record with every field zero. -/
def blankEvent : xcb_generic_event_t :=
  { response_type := 0, asMapRequest := ⟨0⟩,
    asConfigureRequest := ⟨0, 0, 0, 0, 0, 0, 0, 0, 0⟩,
    asUnmapNotify := ⟨0⟩, asDestroyNotify := ⟨0⟩, asKeyPress := ⟨0, 0, 0⟩,
    asButtonPress := ⟨0, 0, 0⟩, asButtonRelease := ⟨0, 0, 0⟩, asMotionNotify := ⟨0, 0⟩ }

/-- A server whose root window 1 has the given children, every window being
viewable, not override-redirect and of class `xterm`. -/
def serverWithChildren (children : List Nat) : Server where
  get_window_attributes := fun _ => some ⟨XCB_MAP_STATE_VIEWABLE, 0⟩
  get_property := fun _ _ _ => some ⟨XCB_ATOM_STRING, 8, bytes "xterm"⟩
  query_tree := fun _ => some children
  has_error := 0
  screen := some ⟨1, 0xffffff, 0, 33⟩
  request_check_error := false
  key_symbols := some [(XK_Tab, 23), (XK_F4, 70), (XK_F2, 68)]
  generate_id := 4194304
  get_geometry := fun _ => some ⟨10, 20, 640, 480, 2⟩

/-- The state after `initialize()` on a server and then the given received
events, each processed by one call of `processNextEvent` against the server
state of its time. -/
def X.afterEvents (srv : Server) (events : List (Server × Option xcb_generic_event_t)) : X :=
  events.foldl (fun system e => (EventHandler.processNextEvent e.1 e.2 system).1)
    ( X.initialize srv X.new).2.1

/-- A server on which the checked change of the root attributes fails:
another window manager holds substructure-redirect on root 1. -/
def serverWithCheckError : Server where
  get_window_attributes := fun _ => some ⟨XCB_MAP_STATE_VIEWABLE, 0⟩
  get_property := fun _ _ _ => some ⟨XCB_ATOM_STRING, 8, bytes "xterm"⟩
  query_tree := fun _ => some [7, 9]
  has_error := 0
  screen := some ⟨1, 0xffffff, 0, 33⟩
  request_check_error := true
  key_symbols := some [(XK_Tab, 23), (XK_F4, 70), (XK_F2, 68)]
  generate_id := 4194304
  get_geometry := fun _ => some ⟨10, 20, 640, 480, 2⟩

/-- The inputs that deliver the given event records, none of them null. -/
def deliveries (events : List (Server × xcb_generic_event_t)) : List Input :=
  events.map (fun p => Input.deliver p.1 (some p.2))

/-- The objects whose destructors a trace starts, in order. -/
def destructions : List Effect → List Component
  | [] => []
  | Effect.destruct c :: rest => c :: destructions rest
  | _ :: rest => destructions rest

/-- The windows of the map requests of a trace, in order. -/
def mapRequests : List Effect → List Nat
  | [] => []
  | Effect.mapWindow w :: rest => w :: mapRequests rest
  | _ :: rest => mapRequests rest

/-- The number of set bits among the 16 bits of a mask: the number of values
that `xcb_configure_window` reads from the value list for a `uint16_t` mask. -/
def popcount16 (mask : Nat) : Nat :=
  (List.range 16).countP (fun i => mask.testBit i)

/-! ## Theorems -/

theorem findFrom_isSome_iff (pat s : List Nat) (i : Nat) :
    (findFrom pat s i).isSome = true ↔ pat <:+: s := by
  induction s generalizing i with
  | nil =>
    cases pat <;> simp [findFrom]
  | cons c cs ih =>
    unfold findFrom
    by_cases h : pat.isPrefixOf (c :: cs) = true
    · have hp : pat <+: c :: cs := List.isPrefixOf_iff_prefix.mp h
      simp [h, hp.isInfix]
    · have hp : ¬ pat <+: c :: cs := fun hp => h (List.isPrefixOf_iff_prefix.mpr hp)
      rw [if_neg h, ih, List.infix_cons_iff]
      simp [hp]

/-- The search `find` succeeds exactly when the pattern is a contiguous
sublist of the string. -/
theorem find_isSome_iff (s pat : List Nat) :
    (find s pat).isSome = true ↔ pat <:+: s :=
  findFrom_isSome_iff pat s 0

/-- C1 (as amended): when the attribute query has a reply, `Window::shouldManage`
returns true exactly when override-redirect is clear, the map state is
viewable, and it is not the case that the class-name query has a reply of type
STRING and format 8 whose value contains "desktop" or "dock". -/
theorem shouldManage_iff (srv : Server) (w : Nat) (a : xcb_get_window_attributes_reply_t)
    (h : srv.get_window_attributes w = some a) :
    (Window.shouldManage srv w).1 = true ↔
      a.override_redirect = 0 ∧ a.map_state = XCB_MAP_STATE_VIEWABLE ∧
      ¬ ∃ r, srv.get_property w XCB_ATOM_WM_CLASS XCB_ATOM_STRING = some r ∧
          r.type = XCB_ATOM_STRING ∧ r.format = 8 ∧
          (bytes "desktop" <:+: r.value ∨ bytes "dock" <:+: r.value) := by
  unfold Window.shouldManage
  rw [h]
  by_cases ho : a.override_redirect = 0
  · cases hp : srv.get_property w XCB_ATOM_WM_CLASS XCB_ATOM_STRING with
    | none => simp [ho]
    | some r =>
      by_cases ht : r.type = XCB_ATOM_STRING <;> by_cases hf : r.format = 8 <;>
        simp [ho, ht, hf, find_isSome_iff]
  · simp [ho]

/-- Witness of `shouldManage_iff`: a viewable window of class `xterm` with
override-redirect clear is managed. -/
theorem shouldManage_iff_witness :
    (serverWithAttributes (some ⟨2, 0⟩)).get_window_attributes 100 = some ⟨2, 0⟩ ∧
    (Window.shouldManage (serverWithAttributes (some ⟨2, 0⟩)) 100).1 = true :=
  ⟨rfl, (shouldManage_iff (serverWithAttributes (some ⟨2, 0⟩)) 100 ⟨2, 0⟩ rfl).mpr
    ⟨rfl, rfl, by
      rintro ⟨r, hr, -, -, hsub⟩
      have hv : r.value = bytes "xterm" := by
        have := Option.some.inj hr
        rw [← this]
      rw [hv] at hsub
      revert hsub
      decide⟩⟩

/-- C1 (counterexample): a viewable window without override-redirect whose
class-name property is of type STRING in format 32 with the value "dock" is
managed, although its value contains "dock". -/
theorem shouldManage_dock_format32 :
    (serverWithClass (some ⟨XCB_ATOM_STRING, 32, bytes "dock"⟩)).get_window_attributes 7
        = some ⟨XCB_MAP_STATE_VIEWABLE, 0⟩ ∧
    (serverWithClass (some ⟨XCB_ATOM_STRING, 32, bytes "dock"⟩)).get_property 7
        XCB_ATOM_WM_CLASS XCB_ATOM_STRING = some ⟨XCB_ATOM_STRING, 32, bytes "dock"⟩ ∧
    wellFormedStringReply ⟨XCB_ATOM_STRING, 32, bytes "dock"⟩ = true ∧
    bytes "dock" <:+: bytes "dock" ∧
    (Window.shouldManage (serverWithClass (some ⟨XCB_ATOM_STRING, 32, bytes "dock"⟩)) 7).1
        = true := by
  refine ⟨rfl, rfl, by decide, List.infix_refl _, by decide⟩

/-- C2: a window with override-redirect set is never managed, whatever its map
state and whatever the class-name query returns. -/
theorem shouldManage_override_redirect (srv : Server) (w : Nat)
    (a : xcb_get_window_attributes_reply_t)
    (h : srv.get_window_attributes w = some a) (ho : a.override_redirect ≠ 0) :
    (Window.shouldManage srv w).1 = false := by
  unfold Window.shouldManage
  rw [h]
  simp [ho]

/-- Witness of `shouldManage_override_redirect`: a viewable override-redirect
window of class `xterm`. -/
theorem shouldManage_override_redirect_witness :
    (Window.shouldManage (serverWithAttributes (some ⟨2, 1⟩)) 100).1 = false :=
  shouldManage_override_redirect (serverWithAttributes (some ⟨2, 1⟩)) 100 ⟨2, 1⟩ rfl
    (by decide)

/-- C3: with no attribute reply the result is false; with an attribute reply
and no class-name reply the result is (viewable and not override-redirect). -/
theorem shouldManage_query_failures (srv : Server) (w : Nat) :
    (srv.get_window_attributes w = none → (Window.shouldManage srv w).1 = false) ∧
    (∀ a, srv.get_window_attributes w = some a →
      srv.get_property w XCB_ATOM_WM_CLASS XCB_ATOM_STRING = none →
      (Window.shouldManage srv w).1 =
        (decide (a.map_state = XCB_MAP_STATE_VIEWABLE) && decide (a.override_redirect = 0))) := by
  constructor
  · intro h
    unfold Window.shouldManage
    rw [h]
  · intro a h hp
    unfold Window.shouldManage
    rw [h]
    by_cases ho : a.override_redirect = 0 <;>
      by_cases hv : a.map_state = XCB_MAP_STATE_VIEWABLE <;> simp [ho, hp, hv]

/-- Witness of `shouldManage_query_failures`: a server with no attribute reply,
and a server with a viewable window and no class-name reply. -/
theorem shouldManage_query_failures_witness :
    (Window.shouldManage (serverWithAttributes none) 100).1 = false ∧
    (Window.shouldManage (serverWithClass none) 100).1 = true :=
  ⟨(shouldManage_query_failures (serverWithAttributes none) 100).1 rfl,
   (shouldManage_query_failures (serverWithClass none) 100).2 ⟨2, 0⟩ rfl rfl⟩

/-! ### Configure requests -/

theorem and_two_pow_ne_zero (m k : Nat) : (m &&& 2 ^ k != 0) = m.testBit k := by
  cases h : m.testBit k
  · have h0 : m &&& 2 ^ k = 0 := by
      apply Nat.eq_of_testBit_eq
      intro i
      by_cases hk : k = i
      · subst hk
        simp [h]
      · simp [Nat.testBit_two_pow, hk]
    simp [h0]
  · have h0 : m &&& 2 ^ k ≠ 0 := by
      intro h0
      have h1 := congrArg (fun n => n.testBit k) h0
      simp [h] at h1
    simp [h0]

/-- C4: `handleConfigureRequest` leaves the state alone and issues one
configure-window request on the window of the event, with the mask of the event
and the fields of the event whose mask bit is set, in the order x, y, width,
height, border width, sibling, stack mode, and then a flush; a request for
window 55 with mask 3 and the position (10, 20) sends the values [10, 20]. -/
theorem handleConfigureRequest_forwards (e : xcb_configure_request_event_t) (s : X) :
    EventHandler.handleConfigureRequest e s =
      (s, [Effect.configureWindow e.window e.value_mask
            (([(0, toU32 e.x), (1, toU32 e.y), (2, e.width), (3, e.height),
               (4, e.border_width), (5, e.sibling), (6, e.stack_mode)].filter
                (fun f => e.value_mask.testBit f.1)).map Prod.snd),
           Effect.flush]) ∧
    ∀ stack sibling width height border : Nat,
      (EventHandler.handleConfigureRequest
          ⟨stack, 55, sibling, 10, 20, width, height, border, 3⟩ s).2 =
        [Effect.configureWindow 55 3 [10, 20], Effect.flush] := by
  have general : ∀ e : xcb_configure_request_event_t,
      EventHandler.handleConfigureRequest e s =
      (s, [Effect.configureWindow e.window e.value_mask
            (([(0, toU32 e.x), (1, toU32 e.y), (2, e.width), (3, e.height),
               (4, e.border_width), (5, e.sibling), (6, e.stack_mode)].filter
                (fun f => e.value_mask.testBit f.1)).map Prod.snd),
           Effect.flush]) := by
    intro e
    have h0 : XCB_CONFIG_WINDOW_X = 2 ^ 0 := rfl
    have h1 : XCB_CONFIG_WINDOW_Y = 2 ^ 1 := rfl
    have h2 : XCB_CONFIG_WINDOW_WIDTH = 2 ^ 2 := rfl
    have h3 : XCB_CONFIG_WINDOW_HEIGHT = 2 ^ 3 := rfl
    have h4 : XCB_CONFIG_WINDOW_BORDER_WIDTH = 2 ^ 4 := rfl
    have h5 : XCB_CONFIG_WINDOW_SIBLING = 2 ^ 5 := rfl
    have h6 : XCB_CONFIG_WINDOW_STACK_MODE = 2 ^ 6 := rfl
    unfold EventHandler.handleConfigureRequest
    simp only [h0, h1, h2, h3, h4, h5, h6, and_two_pow_ne_zero, List.filter_cons, List.filter_nil]
    generalize e.value_mask.testBit 0 = b0
    generalize e.value_mask.testBit 1 = b1
    generalize e.value_mask.testBit 2 = b2
    generalize e.value_mask.testBit 3 = b3
    generalize e.value_mask.testBit 4 = b4
    generalize e.value_mask.testBit 5 = b5
    generalize e.value_mask.testBit 6 = b6
    cases b0 <;> cases b1 <;> cases b2 <;> cases b3 <;> cases b4 <;> cases b5 <;> cases b6 <;>
      rfl
  refine ⟨general e, ?_⟩
  intro stack sibling width height border
  have a0 : 3 &&& 1 = 1 := by decide
  have a1 : 3 &&& 2 = 2 := by decide
  have a2 : 3 &&& 4 = 0 := by decide
  have a3 : 3 &&& 8 = 0 := by decide
  have a4 : 3 &&& 16 = 0 := by decide
  have a5 : 3 &&& 32 = 0 := by decide
  have a6 : 3 &&& 64 = 0 := by decide
  simp [a0, a1, a2, a3, a4, a5, a6, EventHandler.handleConfigureRequest, storeIf, XCB_CONFIG_WINDOW_X, XCB_CONFIG_WINDOW_Y,
    XCB_CONFIG_WINDOW_WIDTH, XCB_CONFIG_WINDOW_HEIGHT, XCB_CONFIG_WINDOW_BORDER_WIDTH,
    XCB_CONFIG_WINDOW_SIBLING, XCB_CONFIG_WINDOW_STACK_MODE, toU32]

/-- C5: each geometry operation of `Window` issues one configure request on
its own window id, with the mask and the values of the fields it sets, and then
a flush. -/
theorem window_geometry_requests (self : Window) (x y : Int) (w h b st : Nat) :
    self.move x y = [Effect.configureWindow self.windowId 3 [toU32 x, toU32 y], Effect.flush] ∧
    self.resize w h = [Effect.configureWindow self.windowId 12 [w, h], Effect.flush] ∧
    self.setBorderWidth b = [Effect.configureWindow self.windowId 16 [b], Effect.flush] ∧
    self.raise = [Effect.configureWindow self.windowId 64 [0], Effect.flush] ∧
    self.lower = [Effect.configureWindow self.windowId 64 [1], Effect.flush] ∧
    self.configure x y w h b st =
      [Effect.configureWindow self.windowId 95 [toU32 x, toU32 y, w, h, b, st], Effect.flush] :=
  ⟨rfl, rfl, rfl, rfl, rfl, rfl⟩

/-- A coordinate that is not negative is stored unchanged. -/
theorem toU32_of_nonneg (n : Nat) (h : n < 4294967296) : toU32 (n : Int) = n := by
  unfold toU32
  omega

/-! ### Ownership -/

/-- C6: releasing a `Window` issues a destroy request for its id exactly when
it was made by the creating constructor; an adopted entity issues nothing on
release, a created one issues one destroy request and a flush. -/
theorem delete_destroys_iff_created (self : Window) :
    (Effect.destroyWindow self.windowId ∈ self.delete ↔ self.created = true) ∧
    (∀ w, ¬ (self.created = true) → Effect.destroyWindow w ∉ self.delete) ∧
    (∀ windowId, (Window.existing windowId).1.delete = []) ∧
    (∀ screen newId x y width height border,
      (Window.create screen newId x y width height border).1.delete =
        [Effect.destroyWindow newId, Effect.flush]) := by
  refine ⟨?_, ?_, fun _ => rfl, fun _ _ _ _ _ _ _ => rfl⟩
  · cases hc : self.created <;> simp [Window.delete, hc]
  · intro w hc
    simp [Window.delete, hc]

/-! ### The registry -/

/-- The map-request handler returns the state it was given. -/
theorem handleMapRequest_state (srv : Server) (e : xcb_map_request_event_t) (s : X) :
    (EventHandler.handleMapRequest srv e s).1 = s := by
  by_cases h : (Window.shouldManage srv e.window).1 = true <;>
    simp [EventHandler.handleMapRequest, h]

/-- No handler of the dispatcher changes the vector of managed windows. -/
theorem dispatch_managedWindows (srv : Server) (e : xcb_generic_event_t) (s : X) :
    (EventHandler.dispatch srv e s).1.managedWindows = s.managedWindows := by
  unfold EventHandler.dispatch
  simp only []
  split_ifs <;>
    first
    | rw [handleMapRequest_state]
    | rfl
    | (simp [EventHandler.handleButtonPress]; split_ifs <;> rfl)

/-- One call of `processNextEvent` leaves the vector of managed windows as it
was. -/
theorem processNextEvent_managedWindows (srv : Server) (r : Option xcb_generic_event_t)
    (s : X) :
    (EventHandler.processNextEvent srv r s).1.managedWindows = s.managedWindows := by
  cases r with
  | none => rfl
  | some e => exact dispatch_managedWindows srv e s

/-- C7 (evaluation): on a server where window 100 is viewable, not
override-redirect and of class `xterm`, `shouldManage` is true; processing a
MapRequest for window 100 after `initialize()` issues the border-width request
with value 2 and the map request for 100, and the vector of managed windows is
empty afterwards. -/
theorem mapRequest_managed_window_not_registered :
    (Window.shouldManage (serverWithAttributes (some ⟨2, 0⟩)) 100).1 = true ∧
    Effect.configureWindow 100 16 [2] ∈
      (EventHandler.processNextEvent (serverWithAttributes (some ⟨2, 0⟩))
        (some { blankEvent with response_type := 20, asMapRequest := ⟨100⟩ })
        ( X.initialize (serverWithAttributes (some ⟨2, 0⟩)) X.new).2.1).2 ∧
    Effect.mapWindow 100 ∈
      (EventHandler.processNextEvent (serverWithAttributes (some ⟨2, 0⟩))
        (some { blankEvent with response_type := 20, asMapRequest := ⟨100⟩ })
        ( X.initialize (serverWithAttributes (some ⟨2, 0⟩)) X.new).2.1).2 ∧
    (EventHandler.processNextEvent (serverWithAttributes (some ⟨2, 0⟩))
        (some { blankEvent with response_type := 20, asMapRequest := ⟨100⟩ })
        ( X.initialize (serverWithAttributes (some ⟨2, 0⟩)) X.new).2.1).1.managedWindows
      = [] := by
  refine ⟨by decide, by decide, by decide, by decide⟩

/-- C9 (evaluation): after `initialize()` on a server whose root has the one
manageable child 7, the vector of managed windows holds the entity of window 7;
processing an UnmapNotify or a DestroyNotify for window 7 returns the same
state, entity included, and the only effect is the release of the event. -/
theorem unmap_destroy_notify_keep_entry :
    ( X.initialize (serverWithChildren [7]) X.new).2.1.managedWindows = [⟨7, false⟩] ∧
    EventHandler.processNextEvent (serverWithChildren [7])
        (some { blankEvent with response_type := 18, asUnmapNotify := ⟨7⟩ })
        ( X.initialize (serverWithChildren [7]) X.new).2.1
      = (( X.initialize (serverWithChildren [7]) X.new).2.1, [Effect.freeEvent]) ∧
    EventHandler.processNextEvent (serverWithChildren [7])
        (some { blankEvent with response_type := 17, asDestroyNotify := ⟨7⟩ })
        ( X.initialize (serverWithChildren [7]) X.new).2.1
      = (( X.initialize (serverWithChildren [7]) X.new).2.1, [Effect.freeEvent]) := by
  refine ⟨by decide, by decide, by decide⟩

/-- The windows that the scan loop appends are the manageable children, in
order, each as an adopted entity. -/
theorem scanChildren_managedWindows (srv : Server) (children : List Nat) (s : X) :
    ( X.scanChildren srv children s).1.managedWindows =
      s.managedWindows ++
        (children.filter (fun c => (Window.shouldManage srv c).1)).map
          (fun c => ({ windowId := c, created := false } : Window)) := by
  induction children generalizing s with
  | nil => simp [X.scanChildren]
  | cons c cs ih =>
    unfold X.scanChildren
    by_cases h : (Window.shouldManage srv c).1 = true
    · simp [h, ih, Window.existing]
    · simp [h, ih]

/-- After `initialize()` the ids of the managed windows are a sublist of the
children that the query-tree reply lists, or there is none. -/
theorem initialize_managedWindows (srv : Server) :
    ( X.initialize srv X.new).2.1.managedWindows = [] ∨
    ∃ root children, srv.query_tree root = some children ∧
      ( X.initialize srv X.new).2.1.managedWindows =
        (children.filter (fun c => (Window.shouldManage srv c).1)).map
          (fun c => ({ windowId := c, created := false } : Window)) := by
  cases hc : (Connection.new srv).1 with
  | none =>
    left
    simp [ X.initialize, hc, X.new]
  | some connection =>
    by_cases hi : connection.isConnected srv = true
    · by_cases he : srv.request_check_error = true
      · left
        simp [ X.initialize, hc, hi, he, X.setupRootWindow, X.new]
      · cases hq : srv.query_tree connection.getRootWindow with
        | none =>
          left
          simp [ X.initialize, hc, hi, he, hq, X.setupRootWindow, X.scanExistingWindows, X.new,
            Window.existing]
        | some children =>
          right
          refine ⟨connection.getRootWindow, children, hq, ?_⟩
          simp [ X.initialize, hc, hi, he, hq, X.setupRootWindow, X.scanExistingWindows, X.new,
            Window.existing, scanChildren_managedWindows]
    · left
      simp [ X.initialize, hc, hi, X.new]

/-- Processing events leaves the vector of managed windows as it was. -/
theorem foldl_processNextEvent_managedWindows
    (events : List (Server × Option xcb_generic_event_t)) (s : X) :
    (events.foldl (fun system e => (EventHandler.processNextEvent e.1 e.2 system).1)
      s).managedWindows = s.managedWindows := by
  induction events generalizing s with
  | nil => rfl
  | cons e es ih =>
    rw [List.foldl_cons, ih, processNextEvent_managedWindows]

/-- C8: when the query-tree replies of the server list no child twice, then
after `initialize()` and any sequence of processed events the vector of managed
windows holds at most one entity of each window id. -/
theorem registry_at_most_one_entity (srv : Server)
    (hchildren : ∀ root children, srv.query_tree root = some children → children.Nodup)
    (events : List (Server × Option xcb_generic_event_t)) (w : Nat) :
    (( X.afterEvents srv events).managedWindows.filter (fun e => e.windowId == w)).length
      ≤ 1 := by
  unfold X.afterEvents
  rw [foldl_processNextEvent_managedWindows]
  rcases initialize_managedWindows srv with h | ⟨root, children, hq, h⟩
  · rw [h]
    simp
  · rw [h]
    have hnodup : (children.filter (fun c => (Window.shouldManage srv c).1)).Nodup :=
      (hchildren root children hq).filter _
    have hcount := List.nodup_iff_count_le_one.mp hnodup w
    rw [List.filter_map, List.length_map, ← List.countP_eq_length_filter]
    rw [List.count] at hcount
    simpa [Function.comp_def] using hcount

/-- Witness of `registry_at_most_one_entity`: the root has the children 7 and
9, and a MapRequest for window 7 is processed after the scan. -/
theorem registry_at_most_one_entity_witness :
    (( X.afterEvents (serverWithChildren [7, 9])
        [(serverWithChildren [7, 9],
          some { blankEvent with response_type := 20, asMapRequest := ⟨7⟩ })]).managedWindows.filter
      (fun e => e.windowId == 7)).length ≤ 1 :=
  registry_at_most_one_entity (serverWithChildren [7, 9])
    (fun _ children h => by
      have hc : children = [7, 9] := by
        simpa [serverWithChildren] using h.symm
      rw [hc]
      decide)
    _ 7

/-! ### Release of the event record -/

/-- The queries of `shouldManage` release no event. -/
theorem shouldManage_no_freeEvent (srv : Server) (w : Nat) :
    Effect.freeEvent ∉ (Window.shouldManage srv w).2 := by
  unfold Window.shouldManage
  cases srv.get_window_attributes w with
  | none => simp
  | some a =>
    by_cases ho : a.override_redirect = 0 <;> simp [ho]

/-- No handler releases the event record. -/
theorem dispatch_no_freeEvent (srv : Server) (e : xcb_generic_event_t) (s : X) :
    Effect.freeEvent ∉ (EventHandler.dispatch srv e s).2 := by
  have hq := shouldManage_no_freeEvent srv e.asMapRequest.window
  unfold EventHandler.dispatch
  simp only []
  split_ifs
  · by_cases h : (Window.shouldManage srv e.asMapRequest.window).1 = true <;>
      simp [EventHandler.handleMapRequest, h, hq, Window.existing, Window.initialize,
        Window.setBorderColor, Window.setBorderWidth, Window.map, Window.focus, Window.raise]
  · simp [EventHandler.handleConfigureRequest]
  · simp [EventHandler.handleUnmapNotify]
  · simp [EventHandler.handleDestroyNotify]
  · simp [EventHandler.handleKeyPress]
  · by_cases h : e.asButtonPress.detail = 1 <;> simp [EventHandler.handleButtonPress, h]
  · simp [EventHandler.handleButtonRelease]
  · simp [EventHandler.handleMotionNotify]
  · simp

/-- C10: for every received event record, whatever its type code, one call of
`processNextEvent` releases the record exactly once, as its last effect. -/
theorem processNextEvent_frees_event_once (srv : Server) (e : xcb_generic_event_t) (s : X) :
    (EventHandler.processNextEvent srv (some e) s).2.count Effect.freeEvent = 1 ∧
    (EventHandler.processNextEvent srv (some e) s).2.getLast? = some Effect.freeEvent := by
  have h := dispatch_no_freeEvent srv e s
  constructor
  · simp only [EventHandler.processNextEvent]
    rw [List.count_append, List.count_eq_zero.mpr h]
    simp
  · simp [EventHandler.processNextEvent]

/-! ### The dispatcher -/

/-- Every handler of the dispatcher returns the state it was given. -/
theorem dispatch_state (srv : Server) (e : xcb_generic_event_t) (s : X) :
    (EventHandler.dispatch srv e s).1 = s := by
  unfold EventHandler.dispatch
  simp only []
  split_ifs <;>
    first
    | rw [handleMapRequest_state]
    | rfl
    | (simp [EventHandler.handleButtonPress]; split_ifs <;> rfl)

/-- The event type is the low seven bits of the tag. -/
theorem eventTypeOf_eq_mod (t : Nat) : eventTypeOf t = t % 128 := by
  unfold eventTypeOf
  apply Nat.eq_of_testBit_eq
  intro i
  have h128 : (128 : Nat) = 2 ^ 7 := rfl
  have h256 : (256 : Nat) = 2 ^ 8 := rfl
  rw [h256, h128, Nat.testBit_mod_two_pow, Nat.testBit_mod_two_pow, Nat.testBit_and]
  by_cases hi : i < 7
  · have hbit : (4294967295 - 0x80 : Nat).testBit i = true := by
      interval_cases i <;> decide
    have hi8 : i < 8 := by omega
    simp [hi, hi8, hbit]
  · by_cases h7 : i = 7
    · subst h7
      have hbit : (4294967295 - 0x80 : Nat).testBit 7 = false := by decide
      simp [hbit]
    · have hi8 : ¬ i < 8 := by omega
      simp [hi, hi8]

/-- Toggling the top bit of the tag leaves the event type as it was. -/
theorem eventTypeOf_xor (t : Nat) : eventTypeOf (t ^^^ 0x80) = eventTypeOf t := by
  rw [eventTypeOf_eq_mod, eventTypeOf_eq_mod]
  apply Nat.eq_of_testBit_eq
  intro i
  have hx : (0x80 : Nat) = 2 ^ 7 := rfl
  rw [hx, Nat.testBit_mod_two_pow, Nat.testBit_mod_two_pow, Nat.testBit_xor,
    Nat.testBit_two_pow]
  by_cases hi : i < 7
  · have h7 : ¬ 7 = i := by omega
    simp [hi, h7]
  · simp [hi]

/-- C13: when the blocking receive returns null, `processNextEvent` clears the
run flag and does nothing else: no handler runs, no request is issued, no event
record is released; and `run()`, blocked in that call, returns. -/
theorem processNextEvent_null_terminates (srv : Server) (s : X) :
    EventHandler.processNextEvent srv none s = ({ s with running := false }, []) ∧
    X.run s [Input.deliver srv none] =
      { system := { s with running := false }, trace := [], processed := 1,
        control := Control.returned } := by
  constructor <;> rfl

/-- C14: an event whose tag has the top bit toggled is routed as the event
itself: the result of the dispatch and of `processNextEvent` is the same. -/
theorem dispatch_ignores_top_bit (srv : Server) (e : xcb_generic_event_t) (s : X) :
    EventHandler.dispatch srv { e with response_type := e.response_type ^^^ 0x80 } s =
      EventHandler.dispatch srv e s ∧
    EventHandler.processNextEvent srv (some { e with response_type := e.response_type ^^^ 0x80 }) s =
      EventHandler.processNextEvent srv (some e) s := by
  have h : EventHandler.dispatch srv { e with response_type := e.response_type ^^^ 0x80 } s =
      EventHandler.dispatch srv e s := by
    unfold EventHandler.dispatch
    simp only [eventTypeOf_xor]
  refine ⟨h, ?_⟩
  simp only [EventHandler.processNextEvent, h]

/-- The queries of `shouldManage` are the attribute query and the class-name
query on the window. -/
theorem shouldManage_queries (srv : Server) (w : Nat) :
    ∀ x ∈ (Window.shouldManage srv w).2,
      x = Effect.getWindowAttributes w ∨
      x = Effect.getProperty 0 w XCB_ATOM_WM_CLASS XCB_ATOM_STRING 0 1024 := by
  unfold Window.shouldManage
  cases srv.get_window_attributes w with
  | none => simp
  | some a =>
    by_cases ho : a.override_redirect = 0 <;> simp [ho]

/-- C15: when `shouldManage` is false for the window of a MapRequest, the
handler leaves the state (and so the registry) as it was, and after the
queries of `shouldManage` it issues one map request on the raw id and a flush,
and nothing else. -/
theorem handleMapRequest_unmanaged (srv : Server) (e : xcb_map_request_event_t) (s : X)
    (h : (Window.shouldManage srv e.window).1 = false) :
    EventHandler.handleMapRequest srv e s =
      (s, (Window.shouldManage srv e.window).2 ++
        [Effect.mapWindow e.window, Effect.flush]) ∧
    ∀ x ∈ (Window.shouldManage srv e.window).2,
      x = Effect.getWindowAttributes e.window ∨
      x = Effect.getProperty 0 e.window XCB_ATOM_WM_CLASS XCB_ATOM_STRING 0 1024 := by
  refine ⟨?_, shouldManage_queries srv e.window⟩
  simp [EventHandler.handleMapRequest, h]

/-- Witness of `handleMapRequest_unmanaged`: a MapRequest for the
override-redirect window 100. -/
theorem handleMapRequest_unmanaged_witness :
    EventHandler.handleMapRequest (serverWithAttributes (some ⟨2, 1⟩)) ⟨100⟩ X.new =
      (X.new, [Effect.getWindowAttributes 100, Effect.mapWindow 100, Effect.flush]) :=
  (handleMapRequest_unmanaged (serverWithAttributes (some ⟨2, 1⟩)) ⟨100⟩ X.new
    (by decide)).1

/-- C17: for button 1 the handler issues a set-input-focus request on the
event window, a configure request on it with the stack-mode mask and the value
Above, and a flush; for any other button it issues nothing; the state is
returned as it was. -/
theorem handleButtonPress_requests (e : xcb_button_press_event_t) (s : X) :
    EventHandler.handleButtonPress e s =
      (s, if e.detail = 1 then
            [Effect.setInputFocus 1 e.event 0, Effect.configureWindow e.event 64 [0],
             Effect.flush]
          else []) := by
  by_cases h : e.detail = 1
  · simp [EventHandler.handleButtonPress, h]
    exact ⟨⟨rfl, rfl⟩, rfl, rfl⟩
  · simp [EventHandler.handleButtonPress, h]

/-! ### The event loop -/

/-- Processing a record that is not null leaves the object as it was. -/
theorem processNextEvent_some_state (srv : Server) (e : xcb_generic_event_t) (s : X) :
    (EventHandler.processNextEvent srv (some e) s).1 = s :=
  dispatch_state srv e s

/-- After a call of `processNextEvent` the run flag is set only if it was set
before. -/
theorem processNextEvent_running (srv : Server) (r : Option xcb_generic_event_t) (s : X)
    (h : s.running = false) :
    (EventHandler.processNextEvent srv r s).1.running = false := by
  cases r with
  | none => rfl
  | some e => rw [processNextEvent_some_state]; exact h

/-- While the flag is set, deliveries of records keep the loop in the wait of
the next call and are all processed. -/
theorem foldl_runStep_deliveries (events : List (Server × xcb_generic_event_t)) (st : RunState)
    (hc : st.control = Control.waiting) (hr : st.system.running = true) :
    ((deliveries events).foldl X.runStep st).control = Control.waiting ∧
    ((deliveries events).foldl X.runStep st).system = st.system ∧
    ((deliveries events).foldl X.runStep st).processed = st.processed + events.length := by
  induction events generalizing st with
  | nil => simp [deliveries, hc]
  | cons p ps ih =>
    have hstep : X.runStep st (Input.deliver p.1 (some p.2)) =
        { system := st.system,
          trace := st.trace ++ (EventHandler.processNextEvent p.1 (some p.2) st.system).2,
          processed := st.processed + 1, control := Control.waiting } := by
      simp [X.runStep, hc, processNextEvent_some_state, hr]
    have hc1 : (X.runStep st (Input.deliver p.1 (some p.2))).control = Control.waiting := by
      rw [hstep]
    have hs1 : (X.runStep st (Input.deliver p.1 (some p.2))).system = st.system := by
      rw [hstep]
    have hp1 : (X.runStep st (Input.deliver p.1 (some p.2))).processed = st.processed + 1 := by
      rw [hstep]
    have h := ih (X.runStep st (Input.deliver p.1 (some p.2))) hc1 (by rw [hs1]; exact hr)
    simp only [deliveries, List.map_cons, List.foldl_cons] at h ⊢
    refine ⟨h.1, h.2.1.trans hs1, ?_⟩
    rw [h.2.2, hp1]
    simp only [List.length_cons]
    omega

/-- Once the loop is left with the flag cleared, no input changes anything. -/
theorem foldl_runStep_returned (inputs : List Input) (st : RunState)
    (hc : st.control = Control.returned) (hr : st.system.running = false) :
    inputs.foldl X.runStep st = st := by
  induction inputs with
  | nil => rfl
  | cons i is ih =>
    have hstep : X.runStep st i = st := by
      cases i with
      | terminate =>
        cases st with
        | mk system trace processed control =>
          cases system
          simp only [X.runStep, X.terminate]
          simp only at hr
          rw [hr]
      | deliver srv r => simp [X.runStep, hc]
    rw [List.foldl_cons, hstep, ih]

/-- C12: `run()` sets the flag on entry and blocks in the first call of
`processNextEvent`. After any deliveries of records, a call of `terminate()`
clears the flag, yet the loop has not returned as long as nothing further is
delivered; the next delivery (a record or null) is still processed, then the
loop returns, and nothing delivered later is processed. -/
theorem run_terminate_observed_after_delivery (s : X)
    (before : List (Server × xcb_generic_event_t)) (srv : Server)
    (r : Option xcb_generic_event_t) (rest : List Input) :
    ((X.run s []).system.running = true ∧ (X.run s []).control = Control.waiting) ∧
    ((X.run s (deliveries before ++ [Input.terminate])).control = Control.waiting ∧
      (X.run s (deliveries before ++ [Input.terminate])).system.running = false ∧
      (X.run s (deliveries before ++ [Input.terminate])).processed = before.length) ∧
    ((X.run s (deliveries before ++ [Input.terminate, Input.deliver srv r])).control
        = Control.returned ∧
      (X.run s (deliveries before ++ [Input.terminate, Input.deliver srv r])).processed
        = before.length + 1) ∧
    X.run s (deliveries before ++ [Input.terminate, Input.deliver srv r] ++ rest) =
      X.run s (deliveries before ++ [Input.terminate, Input.deliver srv r]) := by
  have hd := foldl_runStep_deliveries before s.runEntry rfl rfl
  obtain ⟨hc, hs, hp⟩ := hd
  have hp0 : ((deliveries before).foldl X.runStep s.runEntry).processed = before.length := by
    rw [hp]
    simp [X.runEntry]
  have hrun : ((deliveries before).foldl X.runStep s.runEntry).system.running = true := by
    rw [hs]
    rfl
  have hstep2 : (X.runStep (X.runStep ((deliveries before).foldl X.runStep s.runEntry)
      Input.terminate) (Input.deliver srv r)).control = Control.returned ∧
      (X.runStep (X.runStep ((deliveries before).foldl X.runStep s.runEntry)
      Input.terminate) (Input.deliver srv r)).processed = before.length + 1 ∧
      (X.runStep (X.runStep ((deliveries before).foldl X.runStep s.runEntry)
      Input.terminate) (Input.deliver srv r)).system.running = false := by
    have hf := processNextEvent_running srv r
      ((deliveries before).foldl X.runStep s.runEntry).system.terminate rfl
    simp [X.runStep, hc, hf, hp0]
  refine ⟨⟨rfl, rfl⟩, ?_, ?_, ?_⟩
  · simp only [X.run, List.foldl_append, List.foldl_cons, List.foldl_nil]
    exact ⟨hc, rfl, hp0⟩
  · simp only [X.run, List.foldl_append, List.foldl_cons, List.foldl_nil]
    exact ⟨hstep2.1, hstep2.2.1⟩
  · simp only [X.run, List.foldl_append, List.foldl_cons, List.foldl_nil]
    exact foldl_runStep_returned rest _ hstep2.1 hstep2.2.2

/-! ### Key and pointer events -/

/-- C16 (evaluation): after `initialize()` on a server whose key-symbol table
gives Tab the keycode 23, the keyboard handler holds an action for keycode 23
with the modifier mask 8 (Alt), and its `handleKeyPress` would run it and
return true; processing a KeyPress event with keycode 23 and state 8 returns
the object as it was, and its only effect is the release of the event: the
action is not run. -/
theorem keyPress_registered_action_not_run :
    (( X.initialize (serverWithChildren []) X.new).2.1.keyboardHandler.map
        (fun kb => kb.handleKeyPress (some ⟨23, 8, 1⟩))) =
      some (true, [Effect.callback "Alt+Tab pressed - Switch window"]) ∧
    EventHandler.processNextEvent (serverWithChildren [])
        (some { blankEvent with response_type := 2, asKeyPress := ⟨23, 8, 1⟩ })
        ( X.initialize (serverWithChildren []) X.new).2.1
      = (( X.initialize (serverWithChildren []) X.new).2.1, [Effect.freeEvent]) := by
  refine ⟨by decide, by decide⟩

/-- The bits of the mask that `handleMotionNotify` tests are the bits 8, 9
and 10. -/
theorem buttonMask123_testBit (i : Nat) :
    (XCB_BUTTON_MASK_1 ||| XCB_BUTTON_MASK_2 ||| XCB_BUTTON_MASK_3).testBit i =
      decide (i = 8 ∨ i = 9 ∨ i = 10) := by
  have hm : XCB_BUTTON_MASK_1 ||| XCB_BUTTON_MASK_2 ||| XCB_BUTTON_MASK_3 = 1792 := by decide
  rw [hm]
  by_cases hi : i < 11
  · interval_cases i <;> decide
  · have hlt : 1792 < 2 ^ i :=
      Nat.lt_of_lt_of_le (by decide : 1792 < 2 ^ 11) (Nat.pow_le_pow_right (by decide) (by omega))
    rw [Nat.testBit_lt_two_pow hlt]
    have h8 : ¬ i = 8 := by omega
    have h9 : ¬ i = 9 := by omega
    have h10 : ¬ i = 10 := by omega
    simp [h8, h9, h10]

/-- C18 (as amended): `handleMotionNotify` calls the logger, once and at
severity DEBUG, exactly when the state of the event has one of the bits of
Button1, Button2 or Button3 (bits 8, 9, 10) set; it issues no request and
returns the object as it was. -/
theorem handleMotionNotify_log_iff (e : xcb_motion_notify_event_t) (s : X) :
    (EventHandler.handleMotionNotifyLog e =
      if e.state.testBit 8 ∨ e.state.testBit 9 ∨ e.state.testBit 10 then [LogLevel.DEBUG]
      else []) ∧
    EventHandler.handleMotionNotify e s = (s, []) := by
  refine ⟨?_, rfl⟩
  unfold EventHandler.handleMotionNotifyLog
  by_cases h : e.state.testBit 8 = true ∨ e.state.testBit 9 = true ∨ e.state.testBit 10 = true
  · have hne : e.state &&& (XCB_BUTTON_MASK_1 ||| XCB_BUTTON_MASK_2 ||| XCB_BUTTON_MASK_3) ≠ 0 := by
      intro h0
      have hbit : ∀ i, (e.state.testBit i &&
          (XCB_BUTTON_MASK_1 ||| XCB_BUTTON_MASK_2 ||| XCB_BUTTON_MASK_3).testBit i) = false := by
        intro i
        rw [← Nat.testBit_and, h0, Nat.zero_testBit]
      rcases h with h | h | h
      · have := hbit 8
        rw [buttonMask123_testBit, h] at this
        simp at this
      · have := hbit 9
        rw [buttonMask123_testBit, h] at this
        simp at this
      · have := hbit 10
        rw [buttonMask123_testBit, h] at this
        simp at this
    simp [hne, h]
  · have h0 : e.state &&& (XCB_BUTTON_MASK_1 ||| XCB_BUTTON_MASK_2 ||| XCB_BUTTON_MASK_3) = 0 := by
      apply Nat.eq_of_testBit_eq
      intro i
      rw [Nat.testBit_and, buttonMask123_testBit, Nat.zero_testBit]
      by_cases hi : i = 8 ∨ i = 9 ∨ i = 10
      · rcases hi with hi | hi | hi <;> subst hi <;> simp_all
      · simp [hi]
    simp [h0, h]

/-- C18 (counterexample): a motion event whose state has only the bit of
Button4, or only the bit of Button5, set does not reach the logger. -/
theorem handleMotionNotify_button4_not_logged :
    Nat.testBit XCB_BUTTON_MASK_4 11 = true ∧
    EventHandler.handleMotionNotifyLog ⟨XCB_BUTTON_MASK_4, 5⟩ = [] ∧
    Nat.testBit XCB_BUTTON_MASK_5 12 = true ∧
    EventHandler.handleMotionNotifyLog ⟨XCB_BUTTON_MASK_5, 5⟩ = [] := by
  refine ⟨by decide, by decide, by decide, by decide⟩

/-! ### Start-up and teardown -/

theorem destructions_append (a b : List Effect) :
    destructions (a ++ b) = destructions a ++ destructions b := by
  induction a with
  | nil => rfl
  | cons x xs ih =>
    cases x <;> simp [destructions, ih]

theorem destructions_window_delete (w : Window) : destructions w.delete = [] := by
  unfold Window.delete
  split <;> rfl

theorem destructions_launcher_delete (l : Launcher) : destructions l.delete = [] := by
  unfold Launcher.delete
  split <;> rfl

theorem destructions_connection_delete (c : Connection) : destructions c.delete = [] := by
  unfold Connection.delete
  split <;> rfl

theorem destructions_deleteManagedWindows (ws : List Window) :
    destructions (X.deleteManagedWindows ws) =
      ws.map (fun w => Component.managedWindow w.windowId) := by
  induction ws with
  | nil => rfl
  | cons w ws ih =>
    simp [X.deleteManagedWindows, destructions, destructions_append,
      destructions_window_delete, ih]

/-- The effects of the scan do not depend on the object it is run on. -/
theorem scanChildren_trace (srv : Server) (children : List Nat) (s t : X) :
    ( X.scanChildren srv children s).2 = ( X.scanChildren srv children t).2 := by
  induction children generalizing s t with
  | nil => rfl
  | cons c cs ih =>
    unfold X.scanChildren
    by_cases h : (Window.shouldManage srv c).1 = true
    · simp only [h, Bool.not_true, Bool.false_eq_true, if_false]
      rw [ih _ t]
      congr 1
      exact ih _ _
    · simp only [h, Bool.not_false, if_true]
      rw [ih s t]

theorem scanExistingWindows_trace (srv : Server) (root : Nat) (s t : X) :
    ( X.scanExistingWindows srv s root).2 = ( X.scanExistingWindows srv t root).2 := by
  unfold X.scanExistingWindows
  cases srv.query_tree root with
  | none => rfl
  | some children =>
    simp only []
    rw [scanChildren_trace srv children s t]

/-- C11: when the connection is up and the checked event-mask request on the
root returns an error, `initialize()` returns false after that request; no
query-tree request and no key grab is issued, the registry is empty and no
launcher exists; the teardown of the resulting object destroys the event
handler, the keyboard handler, the root entity and the connection, and only
disconnects. -/
theorem initialize_check_error (srv : Server) (screen : xcb_screen_t)
    (herr : srv.has_error = 0) (hscreen : srv.screen = some screen)
    (hcheck : srv.request_check_error = true) :
    ( X.initialize srv X.new).1 = false ∧
    ( X.initialize srv X.new).2.2 =
      [Effect.connect, Effect.construct Component.connection,
       Effect.changeWindowAttributes screen.root 8 [0], Effect.flush,
       Effect.construct Component.rootWindow,
       Effect.construct Component.keyboardHandler,
       Effect.construct Component.eventHandler,
       Effect.changeWindowAttributesChecked screen.root 2048
         [2 ^ 20 + 2 ^ 19 + 2 ^ 22 + 2 ^ 0]] ∧
    (∀ w, Effect.queryTree w ∉ ( X.initialize srv X.new).2.2) ∧
    (∀ o w m k p q, Effect.grabKey o w m k p q ∉ ( X.initialize srv X.new).2.2) ∧
    ( X.initialize srv X.new).2.1.managedWindows = [] ∧
    ( X.initialize srv X.new).2.1.launcher = none ∧
    X.delete ( X.initialize srv X.new).2.1 =
      [Effect.destruct Component.eventHandler, Effect.destruct Component.keyboardHandler,
       Effect.destruct Component.rootWindow, Effect.destruct Component.connection,
       Effect.disconnect] := by
  have hinit : X.initialize srv X.new =
      (false,
        { running := false, connection := some ⟨true, screen⟩,
          rootWindow := some ⟨screen.root, false⟩, eventHandler := true,
          keyboardHandler := some (KeyboardHandler.new srv), managedWindows := [],
          launcher := none },
        [Effect.connect, Effect.construct Component.connection,
         Effect.changeWindowAttributes screen.root 8 [0], Effect.flush,
         Effect.construct Component.rootWindow,
         Effect.construct Component.keyboardHandler,
         Effect.construct Component.eventHandler,
         Effect.changeWindowAttributesChecked screen.root 2048
           [2 ^ 20 + 2 ^ 19 + 2 ^ 22 + 2 ^ 0]]) := by
    simp [ X.initialize, Connection.new, herr, hscreen, Connection.isConnected,
      X.setupRootWindow, hcheck, X.new, Window.existing, Window.initialize,
      Window.setBorderColor, Connection.getRootWindow]
    exact ⟨rfl, rfl, by decide⟩
  rw [hinit]
  refine ⟨rfl, rfl, ?_, ?_, rfl, rfl, ?_⟩
  · intro w
    simp
  · intro o w m k p q
    simp
  · simp [X.delete, X.deleteManagedWindows, KeyboardHandler.delete, Window.delete,
      Connection.delete]

/-- Witness of `initialize_check_error`: start-up against a server on which
another window manager is running. -/
theorem initialize_check_error_witness :
    ( X.initialize serverWithCheckError X.new).1 = false ∧
    ( X.initialize serverWithCheckError X.new).2.1.managedWindows = [] ∧
    X.delete ( X.initialize serverWithCheckError X.new).2.1 =
      [Effect.destruct Component.eventHandler, Effect.destruct Component.keyboardHandler,
       Effect.destruct Component.rootWindow, Effect.destruct Component.connection,
       Effect.disconnect] :=
  have h := initialize_check_error serverWithCheckError ⟨1, 0xffffff, 0, 33⟩ rfl rfl rfl
  ⟨h.1, h.2.2.2.2.1, h.2.2.2.2.2.2⟩

/-- C19 (as amended): the destructor of `X` destroys the registry entries
first, in registry order, then the launcher, the event handler, the keyboard
handler, the root entity and the connection, each only if it was constructed;
after an `initialize()` that failed, the objects destroyed are none, or the
connection alone, or the event handler, the keyboard handler, the root entity
and the connection. -/
theorem teardown_order (s : X) (srv : Server) :
    destructions (X.delete s) =
      s.managedWindows.map (fun w => Component.managedWindow w.windowId) ++
      (s.launcher.map (fun _ => Component.launcher)).toList ++
      (if s.eventHandler then [Component.eventHandler] else []) ++
      (s.keyboardHandler.map (fun _ => Component.keyboardHandler)).toList ++
      (s.rootWindow.map (fun _ => Component.rootWindow)).toList ++
      (s.connection.map (fun _ => Component.connection)).toList ∧
    (( X.initialize srv X.new).1 = false →
      destructions (X.delete ( X.initialize srv X.new).2.1) = [] ∨
      destructions (X.delete ( X.initialize srv X.new).2.1) = [Component.connection] ∨
      destructions (X.delete ( X.initialize srv X.new).2.1) =
        [Component.eventHandler, Component.keyboardHandler, Component.rootWindow,
         Component.connection]) := by
  have general : ∀ s : X, destructions (X.delete s) =
      s.managedWindows.map (fun w => Component.managedWindow w.windowId) ++
      (s.launcher.map (fun _ => Component.launcher)).toList ++
      (if s.eventHandler then [Component.eventHandler] else []) ++
      (s.keyboardHandler.map (fun _ => Component.keyboardHandler)).toList ++
      (s.rootWindow.map (fun _ => Component.rootWindow)).toList ++
      (s.connection.map (fun _ => Component.connection)).toList := by
    intro s
    unfold X.delete
    simp only [destructions_append, destructions_deleteManagedWindows]
    congr 1
    · congr 1
      · congr 1
        · congr 1
          · congr 1
            cases s.launcher with
            | none => rfl
            | some l => simp [destructions, destructions_launcher_delete]
          · cases s.eventHandler <;> rfl
        · cases s.keyboardHandler with
          | none => rfl
          | some k => simp [destructions, KeyboardHandler.delete]
      · cases s.rootWindow with
        | none => rfl
        | some w => simp [destructions, destructions_window_delete]
    · cases s.connection with
      | none => rfl
      | some c => simp [destructions, destructions_connection_delete]
  refine ⟨general s, ?_⟩
  intro hfalse
  rw [general]
  cases hc : (Connection.new srv).1 with
  | none =>
    left
    simp [ X.initialize, hc, X.new]
  | some connection =>
    by_cases hi : connection.isConnected srv = true
    · by_cases he : srv.request_check_error = true
      · right
        right
        simp [ X.initialize, hc, hi, he, X.setupRootWindow, X.new]
      · exfalso
        simp [ X.initialize, hc, hi, he, X.setupRootWindow] at hfalse
    · right
      left
      simp [ X.initialize, hc, hi, X.new]

/-- C19 (counterexample): after `initialize()` on a server whose root has the
manageable child 7, the destructor of `X` destroys the entity of window 7
first, before the launcher, and not between the root entity and the
connection. -/
theorem teardown_registry_first :
    destructions (X.delete ( X.initialize (serverWithChildren [7]) X.new).2.1) =
      [Component.managedWindow 7, Component.launcher, Component.eventHandler,
       Component.keyboardHandler, Component.rootWindow, Component.connection] ∧
    destructions (X.delete ( X.initialize (serverWithChildren [7]) X.new).2.1) ≠
      [Component.launcher, Component.eventHandler, Component.keyboardHandler,
       Component.rootWindow, Component.managedWindow 7, Component.connection] := by
  refine ⟨by decide, by decide⟩

/-- The key grabs of `grabKey` are grab requests on the given window. -/
theorem grabKey_requests (root keycode modifiers : Nat) :
    ∀ g ∈ KeyboardHandler.grabKey root keycode modifiers,
      ∃ m k, g = Effect.grabKey 1 root m k 1 1 := by
  unfold KeyboardHandler.grabKey
  split
  · simp
  · intro g hg
    simp only [List.mem_cons, List.mem_singleton, List.not_mem_nil, or_false] at hg
    rcases hg with h | h | h | h <;> exact ⟨_, _, h⟩

/-- C20: when the connection is up and the checked request succeeds,
`initialize()` returns true and its effects are, in this order: the connect
and the construction of the connection; the adoption of the root (its border
colour request and flush); the construction of the keyboard handler and then
of the event handler; the checked change of the root attributes with the
event mask of the bits 20, 19, 22 and 0 (SubstructureRedirect,
SubstructureNotify, PropertyChange, KeyPress); the key grabs on the root with
their flush; a flush; the scan, which starts with the query-tree request on
the root; the requests of the launcher constructor, which start with the
creation of its window, and the construction of the launcher. -/
theorem initialize_success_order (srv : Server) (screen : xcb_screen_t)
    (herr : srv.has_error = 0) (hscreen : srv.screen = some screen)
    (hcheck : srv.request_check_error = false) :
    ( X.initialize srv X.new).1 = true ∧
    ( X.initialize srv X.new).2.2 =
      [Effect.connect, Effect.construct Component.connection,
       Effect.changeWindowAttributes screen.root 8 [0], Effect.flush,
       Effect.construct Component.rootWindow,
       Effect.construct Component.keyboardHandler,
       Effect.construct Component.eventHandler,
       Effect.changeWindowAttributesChecked screen.root 2048
         [2 ^ 20 + 2 ^ 19 + 2 ^ 22 + 2 ^ 0]] ++
      ((KeyboardHandler.new srv).grabWMKeys screen.root).2 ++ [Effect.flush] ++
      ( X.scanExistingWindows srv X.new screen.root).2 ++
      (Launcher.new srv ⟨true, screen⟩).2 ++ [Effect.construct Component.launcher] ∧
    (∃ grabs, ((KeyboardHandler.new srv).grabWMKeys screen.root).2 = grabs ++ [Effect.flush] ∧
      ∀ g ∈ grabs, ∃ m k, g = Effect.grabKey 1 screen.root m k 1 1) ∧
    (∃ scan, ( X.scanExistingWindows srv X.new screen.root).2 =
      Effect.queryTree screen.root :: scan) ∧
    (∃ rest, (Launcher.new srv ⟨true, screen⟩).2 =
      Effect.createWindow 0 srv.generate_id screen.root 100 100 400 50 1 1 screen.root_visual
        2050 [screen.white_pixel, 32769] :: rest) := by
  refine ⟨?_, ?_, ?_, ?_, ?_⟩
  · simp [ X.initialize, Connection.new, herr, hscreen, Connection.isConnected,
      X.setupRootWindow, hcheck]
  · have hmask : XCB_EVENT_MASK_SUBSTRUCTURE_REDIRECT ||| XCB_EVENT_MASK_SUBSTRUCTURE_NOTIFY |||
        XCB_EVENT_MASK_PROPERTY_CHANGE ||| XCB_EVENT_MASK_KEY_PRESS =
        2 ^ 20 + 2 ^ 19 + 2 ^ 22 + 2 ^ 0 := by decide
    simp only [ X.initialize, Connection.new, herr, hscreen, Connection.isConnected,
      X.setupRootWindow, hcheck, hmask, Window.existing, Window.initialize,
      Window.setBorderColor, Connection.getRootWindow]
    simp only [bne_self_eq_false, Bool.false_eq_true, if_false, beq_self_eq_true,
      Bool.and_self, Bool.not_true, List.append_assoc, List.cons_append, List.nil_append]
    rw [scanExistingWindows_trace srv screen.root _ X.new]
    rfl
  · refine ⟨_, rfl, ?_⟩
    intro g hg
    simp only [List.mem_append] at hg
    rcases hg with ((((((((h | h) | h) | h) | h) | h) | h) | h) | h) <;>
      exact grabKey_requests _ _ _ g h
  · unfold X.scanExistingWindows
    cases srv.query_tree screen.root with
    | none => exact ⟨[], rfl⟩
    | some children => exact ⟨_, rfl⟩
  · cases h : srv.get_window_attributes srv.generate_id with
    | none =>
      refine ⟨[Effect.changeProperty 0 srv.generate_id 39 31 8 12 (bytes "Run Command" ++ [0]),
        Effect.getWindowAttributes srv.generate_id], ?_⟩
      simp only [Launcher.new, h]
      rfl
    | some a =>
      refine ⟨[Effect.changeProperty 0 srv.generate_id 39 31 8 12 (bytes "Run Command" ++ [0]),
        Effect.getWindowAttributes srv.generate_id, Effect.flush], ?_⟩
      simp only [Launcher.new, h]
      rfl

/-- Witness of `initialize_success_order`: start-up against a server whose
root 1 has the children 7 and 9. -/
theorem initialize_success_order_witness :
    ( X.initialize (serverWithChildren [7, 9]) X.new).1 = true ∧
    ∃ scan, ( X.scanExistingWindows (serverWithChildren [7, 9]) X.new 1).2 =
      Effect.queryTree 1 :: scan :=
  have h := initialize_success_order (serverWithChildren [7, 9]) ⟨1, 0xffffff, 0, 33⟩
    rfl rfl rfl
  ⟨h.1, h.2.2.2.1⟩

/-! ### The scan of existing windows -/

theorem mapRequests_append (a b : List Effect) :
    mapRequests (a ++ b) = mapRequests a ++ mapRequests b := by
  induction a with
  | nil => rfl
  | cons x xs ih =>
    cases x <;> simp [mapRequests, ih]

/-- The queries of `shouldManage` map no window. -/
theorem mapRequests_shouldManage (srv : Server) (w : Nat) :
    mapRequests (Window.shouldManage srv w).2 = [] := by
  unfold Window.shouldManage
  cases srv.get_window_attributes w with
  | none => rfl
  | some a =>
    by_cases ho : a.override_redirect = 0 <;> simp [ho, mapRequests]

/-- The map requests of the scan loop are those of the manageable children,
in order. -/
theorem mapRequests_scanChildren (srv : Server) (children : List Nat) (s : X) :
    mapRequests ( X.scanChildren srv children s).2 =
      children.filter (fun c => (Window.shouldManage srv c).1) := by
  induction children generalizing s with
  | nil => rfl
  | cons c cs ih =>
    unfold X.scanChildren
    by_cases h : (Window.shouldManage srv c).1 = true
    · simp [h, ih, mapRequests_append, mapRequests_shouldManage, Window.existing,
        Window.initialize, Window.setBorderColor, Window.map, mapRequests]
    · simp [h, ih, mapRequests_append, mapRequests_shouldManage]

/-- C21: when the query-tree request on the root has a reply, the scan appends
to the registry the children for which `shouldManage` is true, in the order of
the reply, each as an entity that is not owned; the map requests it issues are
those of exactly these children, in the same order; run on the empty registry
of start-up, the registry afterwards is exactly these entities. -/
theorem scanExistingWindows_registry (srv : Server) (s : X) (root : Nat)
    (children : List Nat) (h : srv.query_tree root = some children) :
    ( X.scanExistingWindows srv s root).1.managedWindows =
      s.managedWindows ++
        (children.filter (fun c => (Window.shouldManage srv c).1)).map
          (fun c => ({ windowId := c, created := false } : Window)) ∧
    mapRequests ( X.scanExistingWindows srv s root).2 =
      children.filter (fun c => (Window.shouldManage srv c).1) ∧
    ( X.scanExistingWindows srv X.new root).1.managedWindows =
      (children.filter (fun c => (Window.shouldManage srv c).1)).map
        (fun c => ({ windowId := c, created := false } : Window)) := by
  refine ⟨?_, ?_, ?_⟩
  · simp [X.scanExistingWindows, h, scanChildren_managedWindows]
  · simp [X.scanExistingWindows, h, mapRequests, mapRequests_scanChildren]
  · simp [X.scanExistingWindows, h, scanChildren_managedWindows, X.new]

/-- Witness of `scanExistingWindows_registry`: the root 1 has the children 7
and 9, both manageable. -/
theorem scanExistingWindows_registry_witness :
    ( X.scanExistingWindows (serverWithChildren [7, 9]) X.new 1).1.managedWindows =
      [⟨7, false⟩, ⟨9, false⟩] ∧
    mapRequests ( X.scanExistingWindows (serverWithChildren [7, 9]) X.new 1).2 = [7, 9] :=
  have h := scanExistingWindows_registry (serverWithChildren [7, 9]) X.new 1 [7, 9] rfl
  ⟨h.2.2.trans (by decide), h.2.1.trans (by decide)⟩

/-! ### The connection -/

/-- C23: after `close()` the handle is empty and `isConnected()` is false; a
second `close()` changes nothing and issues nothing, and neither does the
destructor; `close()` itself disconnects exactly when the handle was set. -/
theorem close_idempotent (c : Connection) (srv : Server) :
    c.close.1.connection = false ∧
    c.close.1.isConnected srv = false ∧
    c.close.1.close = (c.close.1, []) ∧
    c.close.1.delete = [] ∧
    c.close.2 = (if c.connection then [Effect.disconnect] else []) := by
  cases hc : c.connection <;>
    simp [Connection.close, Connection.isConnected, Connection.delete, hc]

/-! ### Construction of windows -/

/-- C24 (as amended): adoption of an existing id gives an entity that is not
owned and issues the border-colour request with the colour 0 and a flush, and
no create request; creation gives an owned entity with the generated id and
issues one create request with that id, the root as parent, the position
narrowed to 16 signed bits and the extents and border width narrowed to 16
unsigned bits, then the border-colour request with the colour 0 and a flush;
values within the 16-bit ranges are sent as given. -/
theorem window_construction (screen : xcb_screen_t) (windowId newId : Nat) (x y : Int)
    (width height border : Nat) :
    Window.existing windowId =
      ({ windowId := windowId, created := false },
        [Effect.changeWindowAttributes windowId 8 [0], Effect.flush]) ∧
    Window.create screen newId x y width height border =
      ({ windowId := newId, created := true },
        [Effect.createWindow 0 newId screen.root (toI16 x) (toI16 y)
           (width % 65536) (height % 65536) (border % 65536) 1 screen.root_visual 2050
           [screen.white_pixel, 163917],
         Effect.changeWindowAttributes newId 8 [0], Effect.flush]) ∧
    (-32768 ≤ x → x < 32768 → toI16 x = x) ∧
    (-32768 ≤ y → y < 32768 → toI16 y = y) ∧
    (width < 65536 → width % 65536 = width) ∧
    (height < 65536 → height % 65536 = height) ∧
    (border < 65536 → border % 65536 = border) := by
  refine ⟨rfl, ?_, ?_, ?_, ?_, ?_, ?_⟩
  · have hm : XCB_CW_BACK_PIXEL ||| XCB_CW_EVENT_MASK = 2050 := by decide
    have hv : XCB_EVENT_MASK_EXPOSURE ||| XCB_EVENT_MASK_KEY_PRESS |||
        XCB_EVENT_MASK_BUTTON_PRESS ||| XCB_EVENT_MASK_BUTTON_RELEASE |||
        XCB_EVENT_MASK_POINTER_MOTION ||| XCB_EVENT_MASK_STRUCTURE_NOTIFY = 163917 := by decide
    simp only [Window.create, hm, hv]
    rfl
  · intro h1 h2
    unfold toI16
    omega
  · intro h1 h2
    unfold toI16
    omega
  · intro h
    exact Nat.mod_eq_of_lt h
  · intro h
    exact Nat.mod_eq_of_lt h
  · intro h
    exact Nat.mod_eq_of_lt h

/-- C24 (counterexample): creation at x = 70000 with the width 65546 issues a
create request with x = 4464 and the width 10. -/
theorem window_create_narrows :
    (Window.create ⟨1, 0xffffff, 0, 33⟩ 4194304 70000 0 65546 100 1).2 =
      [Effect.createWindow 0 4194304 1 4464 0 10 100 1 1 33 2050 [0xffffff, 163917],
       Effect.changeWindowAttributes 4194304 8 [0], Effect.flush] := by
  decide

/-- C25: `focus` issues a set-input-focus request on its own window id, then
the configure request of `raise` on that id with the stack-mode mask and the
value Above, then the flush of `raise` and its own flush, and nothing else. -/
theorem focus_requests (self : Window) :
    self.focus =
      [Effect.setInputFocus 1 self.windowId 0, Effect.configureWindow self.windowId 64 [0],
       Effect.flush, Effect.flush] :=
  rfl

/-- C27: with no reply to the geometry query, `getGeometry` returns false and
the five outputs keep their values; with a reply it returns true and the
outputs are the fields of the reply; in both cases the one query on its own
window id is all it issues. -/
theorem getGeometry_result (self : Window) (srv : Server) (out : Geometry) :
    (srv.get_geometry self.windowId = none →
      self.getGeometry srv out = (false, out, [Effect.getGeometry self.windowId])) ∧
    (∀ r, srv.get_geometry self.windowId = some r →
      self.getGeometry srv out =
        (true, ⟨r.x, r.y, r.width, r.height, r.border_width⟩,
          [Effect.getGeometry self.windowId])) := by
  constructor
  · intro h
    simp [Window.getGeometry, h]
  · intro r h
    simp [Window.getGeometry, h]

/-- Witness of `getGeometry_result`: a server that answers with the geometry
(10, 20, 640, 480, 2). -/
theorem getGeometry_result_witness :
    (⟨7, false⟩ : Window).getGeometry (serverWithChildren []) ⟨0, 0, 1, 1, 0⟩ =
      (true, ⟨10, 20, 640, 480, 2⟩, [Effect.getGeometry 7]) ∧
    (⟨7, false⟩ : Window).getGeometry
        { serverWithChildren [] with get_geometry := fun _ => none } ⟨0, 0, 1, 1, 0⟩ =
      (false, ⟨0, 0, 1, 1, 0⟩, [Effect.getGeometry 7]) :=
  ⟨(getGeometry_result ⟨7, false⟩ (serverWithChildren []) ⟨0, 0, 1, 1, 0⟩).2
      ⟨10, 20, 640, 480, 2⟩ rfl,
   (getGeometry_result ⟨7, false⟩ { serverWithChildren [] with get_geometry := fun _ => none }
      ⟨0, 0, 1, 1, 0⟩).1 rfl⟩

/-! ### The keyboard handler -/

/-- The state masked by `0xFF` and stored as `uint16_t` is the state modulo
256. -/
theorem state_mask_eq_mod (state : Nat) : (state &&& 0xFF) % 65536 = state % 256 := by
  have h : (0xFF : Nat) = 2 ^ 8 - 1 := rfl
  rw [h, Nat.and_pow_two_sub_one_eq_mod]
  have hlt : state % 2 ^ 8 < 256 := Nat.mod_lt _ (by decide)
  have h256 : (2 : Nat) ^ 8 = 256 := rfl
  rw [h256] at hlt ⊢
  omega

/-- After an assignment through the map, the key holds the assigned value. -/
theorem lookup_assign_same (l : List ((Nat × Nat) × String)) (key : Nat × Nat) (cb : String) :
    ((l.filter (fun e => e.1 != key)) ++ [(key, cb)]).lookup key = some cb := by
  induction l with
  | nil => simp [List.lookup]
  | cons e es ih =>
    obtain ⟨k, v⟩ := e
    by_cases h : k = key
    · have hb : (k != key) = false := by simp [h]
      simp only [List.filter_cons, hb, Bool.false_eq_true, if_false]
      exact ih
    · have hb : (k != key) = true := by simp [h]
      have hne : (key == k) = false := by
        simp only [beq_eq_false_iff_ne, ne_eq]
        exact fun hk => h hk.symm
      simp only [List.filter_cons, hb, if_true, List.cons_append, List.lookup, hne]
      exact ih

/-- An assignment through the map leaves the other keys as they were. -/
theorem lookup_assign_other (l : List ((Nat × Nat) × String)) (key other : Nat × Nat)
    (cb : String) (h : other ≠ key) :
    ((l.filter (fun e => e.1 != key)) ++ [(key, cb)]).lookup other = l.lookup other := by
  have hne : (other == key) = false := by
    simp only [beq_eq_false_iff_ne, ne_eq]
    exact h
  induction l with
  | nil => simp [List.lookup, hne]
  | cons e es ih =>
    obtain ⟨k, v⟩ := e
    by_cases hk : k = key
    · have hb : (k != key) = false := by simp [hk]
      have hok : (other == k) = false := by rw [hk]; exact hne
      simp only [List.filter_cons, hb, Bool.false_eq_true, if_false, List.lookup, hok]
      exact ih
    · have hb : (k != key) = true := by simp [hk]
      simp only [List.filter_cons, hb, if_true, List.cons_append]
      cases hok : other == k with
      | true => simp only [List.lookup, hok]
      | false =>
        simp only [List.lookup, hok]
        exact ih

/-- C26: `handleKeyPress` returns false and runs nothing for a null event;
for an event it returns true and runs the registered action once when the map
holds an action for the pair (keycode, state modulo 256), and returns false
and runs nothing when it holds none; after `registerKeyCallback` the pair holds
the action just registered, whatever it held before, and every other pair holds
what it held. -/
theorem keyboard_handleKeyPress_lookup (kb : KeyboardHandler) (e : xcb_key_press_event_t)
    (keycode modifiers : Nat) (first second : String) :
    kb.handleKeyPress none = (false, []) ∧
    (∀ cb, kb.keyCallbacks.lookup (e.detail, e.state % 256) = some cb →
      kb.handleKeyPress (some e) = (true, [Effect.callback cb])) ∧
    (kb.keyCallbacks.lookup (e.detail, e.state % 256) = none →
      kb.handleKeyPress (some e) = (false, [])) ∧
    ((kb.registerKeyCallback keycode modifiers first).registerKeyCallback keycode modifiers
        second).keyCallbacks.lookup (keycode, modifiers) = some second ∧
    (∀ other, other ≠ (keycode, modifiers) →
      (kb.registerKeyCallback keycode modifiers first).keyCallbacks.lookup other =
        kb.keyCallbacks.lookup other) := by
  refine ⟨rfl, ?_, ?_, ?_, ?_⟩
  · intro cb h
    simp [KeyboardHandler.handleKeyPress, state_mask_eq_mod, h]
  · intro h
    simp [KeyboardHandler.handleKeyPress, state_mask_eq_mod, h]
  · exact lookup_assign_same _ _ _
  · intro other h
    exact lookup_assign_other _ _ _ _ h

/-- Witness of `keyboard_handleKeyPress_lookup`: the action of Alt+Tab is
replaced by a second registration and then run by a key press whose state has
a bit above the low eight set. -/
theorem keyboard_handleKeyPress_lookup_witness :
    (((KeyboardHandler.new (serverWithChildren [])).registerKeyCallback 23 8
        "first").registerKeyCallback 23 8 "second").handleKeyPress (some ⟨23, 264, 1⟩) =
      (true, [Effect.callback "second"]) :=
  (keyboard_handleKeyPress_lookup
    (((KeyboardHandler.new (serverWithChildren [])).registerKeyCallback 23 8
        "first").registerKeyCallback 23 8 "second") ⟨23, 264, 1⟩ 23 8 "first" "second").2.1
    "second" (by decide)

/-- C29 (evaluation): with Tab on keycode 23, `grabWMKeys` on root 1 grabs
keycode 23 under the modifier masks 8, 24, 10 and 26 and registers the Alt+Tab
action; `handleKeyPress` matches the key press with state 8, and matches none
of the key presses with the states 24 (Alt+NumLock), 10 (Alt+CapsLock) and 26
(both). -/
theorem grabbed_lock_states_not_matched :
    (Effect.grabKey 1 1 8 23 1 1 ∈ ((KeyboardHandler.new (serverWithChildren [])).grabWMKeys 1).2 ∧
     Effect.grabKey 1 1 24 23 1 1 ∈ ((KeyboardHandler.new (serverWithChildren [])).grabWMKeys 1).2 ∧
     Effect.grabKey 1 1 10 23 1 1 ∈ ((KeyboardHandler.new (serverWithChildren [])).grabWMKeys 1).2 ∧
     Effect.grabKey 1 1 26 23 1 1 ∈
       ((KeyboardHandler.new (serverWithChildren [])).grabWMKeys 1).2) ∧
    ((KeyboardHandler.new (serverWithChildren [])).grabWMKeys 1).1.handleKeyPress
        (some ⟨23, 8, 1⟩) = (true, [Effect.callback "Alt+Tab pressed - Switch window"]) ∧
    ((KeyboardHandler.new (serverWithChildren [])).grabWMKeys 1).1.handleKeyPress
        (some ⟨23, 24, 1⟩) = (false, []) ∧
    ((KeyboardHandler.new (serverWithChildren [])).grabWMKeys 1).1.handleKeyPress
        (some ⟨23, 10, 1⟩) = (false, []) ∧
    ((KeyboardHandler.new (serverWithChildren [])).grabWMKeys 1).1.handleKeyPress
        (some ⟨23, 26, 1⟩) = (false, []) := by
  refine ⟨⟨by decide, by decide, by decide, by decide⟩, by decide, by decide, by decide,
    by decide⟩

/-! ### The launcher -/

/-- C22 (evaluation): the launcher that `initialize()` leaves holds the
installed callback; run on the command `xterm` with a child made, the child
calls `setsid`, then `execl` of the shell, and does not close the connection;
a launcher without a callback closes the connection in the child before the
`execl`. -/
theorem execute_callback_keeps_connection_open :
    (( X.initialize (serverWithChildren []) X.new).2.1.launcher.map
        (fun l => ({ l with command := bytes "xterm" } : Launcher).executeCommand true)) =
      some [Effect.fork (some
        [ProcessStep.setsid,
         ProcessStep.execl (bytes "/bin/sh") [bytes "sh", bytes "-c", bytes "xterm"],
         ProcessStep.exit 1])] ∧
    ProcessStep.closeConnection ∉
      ExecuteCallback.forkSetsidExec.childSteps (bytes "xterm") ∧
    ({ window := 4194304, visible := true, command := bytes "xterm",
       executeCallback := none } : Launcher).executeCommand true =
      [Effect.fork (some
        [ProcessStep.closeConnection,
         ProcessStep.execl (bytes "/bin/sh") [bytes "sh", bytes "-c", bytes "xterm"],
         ProcessStep.exit 1])] := by
  refine ⟨by decide, by decide, by decide⟩

/-- The table of `keyToChar`, range by range. -/
theorem keyToChar_eq (d : Nat) :
    Launcher.keyToChar d =
      if 10 ≤ d ∧ d ≤ 18 then 49 + (d - 10)
      else if d = 19 then 48
      else if 24 ≤ d ∧ d ≤ 33 then 97 + (d - 24)
      else if 38 ≤ d ∧ d ≤ 46 then 107 + (d - 38)
      else if 52 ≤ d ∧ d ≤ 58 then 116 + (d - 52)
      else if d = 65 then 32
      else 0 := by
  have h0 : Char.toNat '0' = 48 := rfl
  have ha : Char.toNat 'a' = 97 := rfl
  have hs : Char.toNat ' ' = 32 := rfl
  unfold Launcher.keyToChar
  simp only [h0, ha, hs, ge_iff_le, Bool.and_eq_true, decide_eq_true_eq, beq_iff_eq]
  split_ifs <;> omega

/-- A key of the default case: the character is appended and the launcher
redrawn when the table has one, else nothing happens. -/
theorem launcher_handleKeyPress_default (l : Launcher) (srv : Server) (connection : Connection)
    (forked : Bool) (e : xcb_key_press_event_t)
    (hv : l.visible = true) (hw : e.event = l.window)
    (h36 : e.detail ≠ 36) (h9 : e.detail ≠ 9) (h22 : e.detail ≠ 22) :
    l.handleKeyPress srv connection forked e =
      if Launcher.keyToChar e.detail ≠ 0 then
        (true, { l with command := l.command ++ [Launcher.keyToChar e.detail] },
          ({ l with command := l.command ++ [Launcher.keyToChar e.detail] } : Launcher).draw
            srv connection)
      else (false, l, []) := by
  unfold Launcher.handleKeyPress
  simp [hv, hw, h36, h9, h22]

/-- A key whose table entry is the character `c` appends `c`. -/
theorem launcher_handleKeyPress_appends (l : Launcher) (srv : Server) (connection : Connection)
    (forked : Bool) (e : xcb_key_press_event_t) (c : Nat)
    (hv : l.visible = true) (hw : e.event = l.window)
    (h36 : e.detail ≠ 36) (h9 : e.detail ≠ 9) (h22 : e.detail ≠ 22)
    (hc : Launcher.keyToChar e.detail = c) (hc0 : c ≠ 0) :
    (l.handleKeyPress srv connection forked e).1 = true ∧
    (l.handleKeyPress srv connection forked e).2.1.command = l.command ++ [c] := by
  rw [launcher_handleKeyPress_default l srv connection forked e hv hw h36 h9 h22, hc]
  simp [hc0]

/-- C28: for a visible launcher and a key event on its window, the keycodes
10..18 append '1'..'9', 19 appends '0', 24..33 append 'a'..'j', 38..46 append
'k'..'s', 52..58 append 't'..'z' and 65 appends a space, each returning true;
any other keycode except 36, 9 and 22 returns false and leaves the launcher as
it was, with no effect; the 26 letter keycodes, in order, give 'a'..'z'. -/
theorem launcher_key_table (l : Launcher) (srv : Server) (connection : Connection)
    (forked : Bool) (e : xcb_key_press_event_t)
    (hv : l.visible = true) (hw : e.event = l.window) :
    (10 ≤ e.detail ∧ e.detail ≤ 18 →
      (l.handleKeyPress srv connection forked e).1 = true ∧
      (l.handleKeyPress srv connection forked e).2.1.command =
        l.command ++ [49 + (e.detail - 10)]) ∧
    (e.detail = 19 →
      (l.handleKeyPress srv connection forked e).1 = true ∧
      (l.handleKeyPress srv connection forked e).2.1.command = l.command ++ [48]) ∧
    (24 ≤ e.detail ∧ e.detail ≤ 33 →
      (l.handleKeyPress srv connection forked e).1 = true ∧
      (l.handleKeyPress srv connection forked e).2.1.command =
        l.command ++ [97 + (e.detail - 24)]) ∧
    (38 ≤ e.detail ∧ e.detail ≤ 46 →
      (l.handleKeyPress srv connection forked e).1 = true ∧
      (l.handleKeyPress srv connection forked e).2.1.command =
        l.command ++ [107 + (e.detail - 38)]) ∧
    (52 ≤ e.detail ∧ e.detail ≤ 58 →
      (l.handleKeyPress srv connection forked e).1 = true ∧
      (l.handleKeyPress srv connection forked e).2.1.command =
        l.command ++ [116 + (e.detail - 52)]) ∧
    (e.detail = 65 →
      (l.handleKeyPress srv connection forked e).1 = true ∧
      (l.handleKeyPress srv connection forked e).2.1.command = l.command ++ [32]) ∧
    (¬ (10 ≤ e.detail ∧ e.detail ≤ 19) → ¬ (24 ≤ e.detail ∧ e.detail ≤ 33) →
      ¬ (38 ≤ e.detail ∧ e.detail ≤ 46) → ¬ (52 ≤ e.detail ∧ e.detail ≤ 58) →
      e.detail ≠ 65 → e.detail ≠ 36 → e.detail ≠ 9 → e.detail ≠ 22 →
      l.handleKeyPress srv connection forked e = (false, l, [])) ∧
    (List.range' 24 10 ++ List.range' 38 9 ++ List.range' 52 7).map Launcher.keyToChar =
      List.range' 97 26 := by
  refine ⟨?_, ?_, ?_, ?_, ?_, ?_, ?_, by decide⟩
  · intro h
    apply launcher_handleKeyPress_appends l srv connection forked e _ hv hw
      (by omega) (by omega) (by omega) _ (by omega)
    rw [keyToChar_eq]
    simp [h]
  · intro h
    apply launcher_handleKeyPress_appends l srv connection forked e _ hv hw
      (by omega) (by omega) (by omega) _ (by omega)
    rw [keyToChar_eq]
    simp [h]
  · intro h
    apply launcher_handleKeyPress_appends l srv connection forked e _ hv hw
      (by omega) (by omega) (by omega) _ (by omega)
    rw [keyToChar_eq]
    split_ifs <;> omega
  · intro h
    apply launcher_handleKeyPress_appends l srv connection forked e _ hv hw
      (by omega) (by omega) (by omega) _ (by omega)
    rw [keyToChar_eq]
    split_ifs <;> omega
  · intro h
    apply launcher_handleKeyPress_appends l srv connection forked e _ hv hw
      (by omega) (by omega) (by omega) _ (by omega)
    rw [keyToChar_eq]
    split_ifs <;> omega
  · intro h
    apply launcher_handleKeyPress_appends l srv connection forked e _ hv hw
      (by omega) (by omega) (by omega) _ (by omega)
    rw [keyToChar_eq]
    simp [h]
  · intro n1 n2 n3 n4 n65 n36 n9 n22
    rw [launcher_handleKeyPress_default l srv connection forked e hv hw n36 n9 n22]
    have hz : Launcher.keyToChar e.detail = 0 := by
      rw [keyToChar_eq]
      split_ifs <;> omega
    simp [hz]

/-- Witness of `launcher_key_table`: a visible launcher with window 5 and the
command `x` receives the keycode 24 and then holds the command `xa`. -/
theorem launcher_key_table_witness :
    (({ window := 5, visible := true, command := [120], executeCallback := none } :
        Launcher).handleKeyPress (serverWithChildren []) ⟨true, ⟨1, 0xffffff, 0, 33⟩⟩ true
        ⟨24, 0, 5⟩).2.1.command = [120, 97] :=
  ((launcher_key_table
    { window := 5, visible := true, command := [120], executeCallback := none }
    (serverWithChildren []) ⟨true, ⟨1, 0xffffff, 0, 33⟩⟩ true ⟨24, 0, 5⟩ rfl rfl).2.2.1
      ⟨by decide, by decide⟩).2

/-! ### The value buffer of configure requests -/

/-- The slots that `handleConfigureRequest` writes are at most seven, one for
each set bit among the bits 0..6 of the mask. -/
theorem handleConfigureRequest_slots (e : xcb_configure_request_event_t) (s : X) :
    ∃ values, (EventHandler.handleConfigureRequest e s).2 =
        [Effect.configureWindow e.window e.value_mask values, Effect.flush] ∧
      values.length ≤ 7 ∧
      values.length = (List.range 7).countP (fun i => e.value_mask.testBit i) := by
  have h0 : XCB_CONFIG_WINDOW_X = 2 ^ 0 := rfl
  have h1 : XCB_CONFIG_WINDOW_Y = 2 ^ 1 := rfl
  have h2 : XCB_CONFIG_WINDOW_WIDTH = 2 ^ 2 := rfl
  have h3 : XCB_CONFIG_WINDOW_HEIGHT = 2 ^ 3 := rfl
  have h4 : XCB_CONFIG_WINDOW_BORDER_WIDTH = 2 ^ 4 := rfl
  have h5 : XCB_CONFIG_WINDOW_SIBLING = 2 ^ 5 := rfl
  have h6 : XCB_CONFIG_WINDOW_STACK_MODE = 2 ^ 6 := rfl
  have hr : List.range 7 = [0, 1, 2, 3, 4, 5, 6] := by decide
  have hlen : ∀ (m : Nat) (v0 v1 v2 v3 v4 v5 v6 : Nat),
      (storeIf (m &&& XCB_CONFIG_WINDOW_STACK_MODE != 0)
        (storeIf (m &&& XCB_CONFIG_WINDOW_SIBLING != 0)
          (storeIf (m &&& XCB_CONFIG_WINDOW_BORDER_WIDTH != 0)
            (storeIf (m &&& XCB_CONFIG_WINDOW_HEIGHT != 0)
              (storeIf (m &&& XCB_CONFIG_WINDOW_WIDTH != 0)
                (storeIf (m &&& XCB_CONFIG_WINDOW_Y != 0)
                  (storeIf (m &&& XCB_CONFIG_WINDOW_X != 0) [] v0) v1) v2) v3) v4) v5) v6).length =
        (List.range 7).countP (fun i => m.testBit i) := by
    intro m v0 v1 v2 v3 v4 v5 v6
    simp only [h0, h1, h2, h3, h4, h5, h6, and_two_pow_ne_zero, hr, List.countP_cons,
      List.countP_nil]
    generalize m.testBit 0 = b0
    generalize m.testBit 1 = b1
    generalize m.testBit 2 = b2
    generalize m.testBit 3 = b3
    generalize m.testBit 4 = b4
    generalize m.testBit 5 = b5
    generalize m.testBit 6 = b6
    cases b0 <;> cases b1 <;> cases b2 <;> cases b3 <;> cases b4 <;> cases b5 <;> cases b6 <;>
      rfl
  refine ⟨_, rfl, ?_, hlen _ _ _ _ _ _ _ _⟩
  rw [hlen]
  have hle : List.countP (fun i => e.value_mask.testBit i) (List.range 7) ≤
      (List.range 7).length := List.countP_le_length _
  rw [List.length_range] at hle
  exact hle

/-- C30 (evaluation): a ConfigureRequest with the mask 0x80 writes no slot
while the forwarded mask has one set bit, also when it arrives as a synthetic
event (tag 23 with the top bit set); one with the mask 0xFFFF writes seven
slots while the forwarded mask has sixteen set bits. -/
theorem configureRequest_mask_high_bits :
    (EventHandler.handleConfigureRequest ⟨0, 55, 0, 10, 20, 30, 40, 1, 0x80⟩ X.new).2 =
      [Effect.configureWindow 55 0x80 [], Effect.flush] ∧
    popcount16 0x80 = 1 ∧
    (EventHandler.processNextEvent (serverWithChildren [])
        (some { blankEvent with response_type := 0x97,
                                asConfigureRequest := ⟨0, 55, 0, 10, 20, 30, 40, 1, 0x80⟩ })
        X.new).2 =
      [Effect.configureWindow 55 0x80 [], Effect.flush, Effect.freeEvent] ∧
    (EventHandler.handleConfigureRequest ⟨0, 55, 0, 10, 20, 30, 40, 1, 0xFFFF⟩ X.new).2 =
      [Effect.configureWindow 55 0xFFFF [10, 20, 30, 40, 1, 0, 0], Effect.flush] ∧
    popcount16 0xFFFF = 16 := by
  refine ⟨by decide, by decide, by decide, by decide, by decide⟩

end Doowm
